import Mathlib

/-!
Shallow embedding of the ogx360 firmware (TEK-Nemesis fork) for specification
checking.  The definitions below are transcribed from the C++ sources:

  * Firmware/src/usbh/usbh_xinput.cpp  (host-side wire decoder and feedback)
  * Firmware/src/master.cpp            (mapping engine and bus coordinator)
  * Firmware/src/slave.cpp             (bus peer)
  * Firmware/src/usbd/usbd_xid.cpp     (console-facing device emulation)

Machine integers are modelled as Nat (unsigned) or Int (signed), with explicit
truncation (mod / bitwise-and with a mask) exactly where a C store or integer
conversion truncates.  C signed division truncates toward zero, which is
Int.tdiv.  uint32 timer arithmetic (millis() - t) is modelled by u32_sub.

The header Firmware/src/usbd/usbd_xid.h is not part of the given sources; the
constants and report sizes it provides (SBC_* bit masks, xid_type_t enum
values, report struct sizes, SBC_AIMING_MID) are modelled from the spec where
needed and are marked as such below.
-/

namespace Ogx360

/-- uint32 subtraction a - b as C computes it for two uint32 operands. -/
def u32_sub (a b : Nat) : Nat :=
  (a % 4294967296 + 4294967296 - b % 4294967296) % 4294967296

/-- Arduino constrain(amt, low, high) on mathematical integers:
amt < low gives low, amt > high gives high, otherwise amt. -/
def constrainI (amt low high : Int) : Int :=
  if amt < low then low else if amt > high then high else amt

/-- Arduino constrain on Nat (used for uint8 fields with Nat bounds). -/
def constrainN (amt low high : Nat) : Nat :=
  if amt < low then low else if amt > high then high else amt

/-- Reassemble a little-endian int16 from two bytes, as the C cast
(int16_t)(lo | (hi << 8)) does. -/
def i16FromBytes (lo hi : Nat) : Int :=
  let v := (lo ||| (hi <<< 8)) % 65536
  if v < 32768 then (v : Int) else (v : Int) - 65536

/-- xinput_padstate_t (usbh_xinput.h): canonical pad state. -/
structure XinputPadState where
  wButtons : Nat       -- uint16
  bLeftTrigger : Nat   -- uint8
  bRightTrigger : Nat  -- uint8
  sThumbLX : Int       -- int16
  sThumbLY : Int
  sThumbRX : Int
  sThumbRY : Int
  deriving Repr, DecidableEq

/-- xinput_type_t (usbh_xinput.h). -/
inductive XinputType where
  | XINPUT_UNKNOWN | XBOXONE | XBOX360_WIRELESS | XBOX360_WIRED | XBOXOG
  | XINPUT_KEYBOARD | XINPUT_MOUSE | XINPUT_8BITDO_IDLE
  deriving Repr, DecidableEq

/-- usbh_xinput_t (usbh_xinput.h): one DeviceRecord.  The chatpad live state
(bytes 25..27 of a wireless packet) and the 3-slot edge history are kept as
length-3 lists read positionally, like the C arrays. -/
structure UsbhXinput where
  bAddress : Nat                     -- uint8, 0 = free slot
  type : XinputType
  pad_state : XinputPadState
  pad_state_wButtons_old : Nat       -- uint16
  lValue_requested : Nat             -- uint8
  rValue_requested : Nat
  lValue_actual : Nat
  rValue_actual : Nat
  led_requested : Nat
  led_actual : Nat
  chatpad_initialised : Nat
  chatpad_state : List Nat           -- uint8[3]: [modifier bits, key1, key2]
  chatpad_state_old : List Nat       -- uint8[3]: rolling edge history
  chatpad_led_requested : Nat
  chatpad_led_actual : Nat
  timer_out : Nat                    -- uint32 millis timestamps
  timer_periodic : Nat
  timer_poweroff : Nat
  deriving Repr, DecidableEq

/-- usbh_xinput_is_chatpad_pressed (usbh_xinput.cpp, lines 75-86):
modifier codes below 17 are tested as bit flags against chatpad_state[0];
ordinary key codes are tested by membership in chatpad_state[1..2]. -/
def usbh_xinput_is_chatpad_pressed (x : UsbhXinput) (code : Nat) : Nat :=
  if x.bAddress = 0 then 0
  else if code < 17 ∧ x.chatpad_state.getD 0 0 &&& code ≠ 0 then 1
  else if code < 17 then 0
  else if x.chatpad_state.getD 1 0 = code ∨ x.chatpad_state.getD 2 0 = code then 1
  else 0

/-- The claim-a-free-slot loop of usbh_xinput_was_chatpad_pressed: write code
into the first zero history slot, reporting whether one was found. -/
def claimFreeSlot : List Nat → Nat → Option (List Nat)
  | [], _ => none
  | v :: vs, code =>
      if v = 0 then some (code :: vs)
      else (claimFreeSlot vs code).map (fun r => v :: r)

/-- usbh_xinput_was_chatpad_pressed (usbh_xinput.cpp, lines 88-110):
returns the uint8 result together with the mutated record (the C function
mutates chatpad_state_old in place). -/
def usbh_xinput_was_chatpad_pressed (x : UsbhXinput) (code : Nat) :
    Nat × UsbhXinput :=
  if usbh_xinput_is_chatpad_pressed x code = 0 then
    -- button is not pressed any more: clear it from the history
    (0, { x with chatpad_state_old :=
            x.chatpad_state_old.map (fun v => if v = code then 0 else v) })
  else if x.chatpad_state_old.getD 0 0 ≠ code ∧
          x.chatpad_state_old.getD 1 0 ≠ code ∧
          x.chatpad_state_old.getD 2 0 ≠ code then
    match claimFreeSlot x.chatpad_state_old code with
    | some h => (1, { x with chatpad_state_old := h })
    | none => (0, x)
  else (0, x)

/-- usbh_xinput_is_gamepad_pressed (usbh_xinput.cpp, lines 112-117).
The C function returns uint8, so the 16-bit AND result is truncated to its
low byte on return. -/
def usbh_xinput_is_gamepad_pressed (x : UsbhXinput) (button_mask : Nat) : Nat :=
  if x.bAddress = 0 then 0
  else (x.pad_state.wButtons &&& button_mask) &&& 0xFF

/-- usbh_xinput_was_gamepad_pressed (usbh_xinput.cpp, lines 119-130),
returning the uint8 result and the record with pad_state_wButtons_old
updated.  The C expression old &= ~mask on uint16 is old &&& (0xFFFF ^^^
mask). -/
def usbh_xinput_was_gamepad_pressed (x : UsbhXinput) (button_mask : Nat) :
    Nat × UsbhXinput :=
  if usbh_xinput_is_gamepad_pressed x button_mask ≠ 0 then
    if x.pad_state_wButtons_old &&& button_mask = 0 then
      (1, { x with pad_state_wButtons_old :=
              x.pad_state_wButtons_old ||| button_mask })
    else (0, x)
  else
    (0, { x with pad_state_wButtons_old :=
            x.pad_state_wButtons_old &&& (0xFFFF ^^^ button_mask) })

/-! ### Constants from usbh_xinput.h -/

def XINPUT_GAMEPAD_DPAD_UP : Nat := 0x0001
def XINPUT_GAMEPAD_DPAD_DOWN : Nat := 0x0002
def XINPUT_GAMEPAD_DPAD_LEFT : Nat := 0x0004
def XINPUT_GAMEPAD_DPAD_RIGHT : Nat := 0x0008
def XINPUT_GAMEPAD_START : Nat := 0x0010
def XINPUT_GAMEPAD_BACK : Nat := 0x0020
def XINPUT_GAMEPAD_LEFT_THUMB : Nat := 0x0040
def XINPUT_GAMEPAD_RIGHT_THUMB : Nat := 0x0080
def XINPUT_GAMEPAD_LEFT_SHOULDER : Nat := 0x0100
def XINPUT_GAMEPAD_RIGHT_SHOULDER : Nat := 0x0200
def XINPUT_GAMEPAD_XBOX_BUTTON : Nat := 0x0400
def XINPUT_GAMEPAD_A : Nat := 0x1000
def XINPUT_GAMEPAD_B : Nat := 0x2000
def XINPUT_GAMEPAD_X : Nat := 0x4000
def XINPUT_GAMEPAD_Y : Nat := 0x8000

def XINPUT_CHATPAD_1 : Nat := 23
def XINPUT_CHATPAD_2 : Nat := 22
def XINPUT_CHATPAD_3 : Nat := 21
def XINPUT_CHATPAD_4 : Nat := 20
def XINPUT_CHATPAD_5 : Nat := 19
def XINPUT_CHATPAD_6 : Nat := 18
def XINPUT_CHATPAD_7 : Nat := 17
def XINPUT_CHATPAD_8 : Nat := 103
def XINPUT_CHATPAD_9 : Nat := 102
def XINPUT_CHATPAD_0 : Nat := 101
def XINPUT_CHATPAD_Q : Nat := 39
def XINPUT_CHATPAD_W : Nat := 38
def XINPUT_CHATPAD_U : Nat := 33
def XINPUT_CHATPAD_I : Nat := 118
def XINPUT_CHATPAD_P : Nat := 100
def XINPUT_CHATPAD_A : Nat := 55
def XINPUT_CHATPAD_S : Nat := 54
def XINPUT_CHATPAD_D : Nat := 53
def XINPUT_CHATPAD_F : Nat := 52
def XINPUT_CHATPAD_G : Nat := 51
def XINPUT_CHATPAD_J : Nat := 49
def XINPUT_CHATPAD_K : Nat := 119
def XINPUT_CHATPAD_COMMA : Nat := 98
def XINPUT_CHATPAD_Z : Nat := 70
def XINPUT_CHATPAD_X : Nat := 69
def XINPUT_CHATPAD_C : Nat := 68
def XINPUT_CHATPAD_V : Nat := 67
def XINPUT_CHATPAD_N : Nat := 65
def XINPUT_CHATPAD_M : Nat := 82
def XINPUT_CHATPAD_ENTER : Nat := 99
def XINPUT_CHATPAD_LEFT : Nat := 85
def XINPUT_CHATPAD_SPACE : Nat := 84
def XINPUT_CHATPAD_RIGHT : Nat := 81
def XINPUT_CHATPAD_BACK : Nat := 113
def XINPUT_CHATPAD_SHIFT : Nat := 1
def XINPUT_CHATPAD_GREEN : Nat := 2
def XINPUT_CHATPAD_ORANGE : Nat := 4
def XINPUT_CHATPAD_MESSENGER : Nat := 8

/-! ### Constants from usbd_xid.h

Modelled from the spec: the header Firmware/src/usbd/usbd_xid.h is not among
the given sources.  It supplies the Steel Battalion bit masks referenced by
master.cpp, the xid_type_t enum values carried in the bus status byte (low
nibble = target family), the fixed report sizes, and the aiming midpoint.
The bit masks follow the standard Steel Battalion controller report layout
(the spec notes that the toggle-switch bits live in the 0xFFFC region of word
2, which the shift key flips en masse, and that word-2 bits 0-1 are the
non-toggle bits). -/

def SBC_W0_RIGHTJOYMAINWEAPON : Nat := 0x0001
def SBC_W0_RIGHTJOYFIRE : Nat := 0x0002
def SBC_W0_RIGHTJOYLOCKON : Nat := 0x0004
def SBC_W0_EJECT : Nat := 0x0008
def SBC_W0_COCKPITHATCH : Nat := 0x0010
def SBC_W0_IGNITION : Nat := 0x0020
def SBC_W0_START : Nat := 0x0040
def SBC_W0_MULTIMONOPENCLOSE : Nat := 0x0080
def SBC_W0_MULTIMONMAPZOOMINOUT : Nat := 0x0100
def SBC_W0_MULTIMONMODESELECT : Nat := 0x0200
def SBC_W0_MULTIMONSUBMONITOR : Nat := 0x0400
def SBC_W0_MAINMONZOOMIN : Nat := 0x0800
def SBC_W0_MAINMONZOOMOUT : Nat := 0x1000
def SBC_W0_FUNCTIONFSS : Nat := 0x2000
def SBC_W0_FUNCTIONMANIPULATOR : Nat := 0x4000
def SBC_W0_FUNCTIONLINECOLORCHANGE : Nat := 0x8000

def SBC_W1_WASHING : Nat := 0x0001
def SBC_W1_EXTINGUISHER : Nat := 0x0002
def SBC_W1_CHAFF : Nat := 0x0004
def SBC_W1_FUNCTIONTANKDETACH : Nat := 0x0008
def SBC_W1_FUNCTIONOVERRIDE : Nat := 0x0010
def SBC_W1_FUNCTIONNIGHTSCOPE : Nat := 0x0020
def SBC_W1_FUNCTIONF1 : Nat := 0x0040
def SBC_W1_FUNCTIONF2 : Nat := 0x0080
def SBC_W1_FUNCTIONF3 : Nat := 0x0100
def SBC_W1_WEAPONCONMAIN : Nat := 0x0200
def SBC_W1_WEAPONCONSUB : Nat := 0x0400
def SBC_W1_WEAPONCONMAGAZINE : Nat := 0x0800
def SBC_W1_COMM1 : Nat := 0x1000
def SBC_W1_COMM2 : Nat := 0x2000
def SBC_W1_COMM3 : Nat := 0x4000
def SBC_W1_COMM4 : Nat := 0x8000

def SBC_W2_COMM5 : Nat := 0x0001
def SBC_W2_LEFTJOYSIGHTCHANGE : Nat := 0x0002
def SBC_W2_TOGGLEOXYGENSUPPLY : Nat := 0x0004
def SBC_W2_TOGGLEFILTERCONTROL : Nat := 0x0008
def SBC_W2_TOGGLEVTLOCATION : Nat := 0x0010
def SBC_W2_TOGGLEBUFFREMATERIAL : Nat := 0x0020
def SBC_W2_TOGGLEFUELFLOWRATE : Nat := 0x0040

/-- Modelled from the spec: midpoint of the documented aiming range
[0, 65535]. -/
def SBC_AIMING_MID : Int := 32768

/-- Modelled from the spec: gear range is the enumeration reverse, neutral,
1..5; gearLever is modelled as a mathematical integer with R = -1, N = 0. -/
def SBC_GEAR_R : Int := -1
def SBC_GEAR_N : Int := 0
def SBC_GEAR_5 : Int := 5

/-- Modelled from the spec: fixed report sizes of the two console-native
report pairs (in-to-console and out-from-console), in bytes.  The wire
protocol on the bus carries exactly these sizes after the status byte. -/
def sizeof_duke_in : Nat := 20
def sizeof_duke_out : Nat := 6
def sizeof_sbattalion_in : Nat := 26
def sizeof_sbattalion_out : Nat := 22

/-- Modelled from the spec: xid_type_t enum values; the status byte carries
the target family in its low nibble and the spec end-to-end scenario 2 uses
0xF1 for the standard gamepad family. -/
def XID_DISCONNECTED : Nat := 0
def XID_DUKE : Nat := 1
def XID_STEELBATTALION : Nat := 2

/-! ### Data model of the Steel Battalion mapping path (master.cpp) -/

/-- usbd_sbattalion_in_t: the cockpit-controller in-report. -/
structure SBIn where
  startByte : Nat
  bLength : Nat
  wButtons0 : Nat      -- wButtons[0], uint16
  wButtons1 : Nat      -- wButtons[1]
  wButtons2 : Nat      -- wButtons[2]
  aimingX : Nat        -- uint16
  aimingY : Nat
  rotationLever : Int  -- int16
  sightChangeX : Int
  sightChangeY : Int
  leftPedal : Nat      -- uint16
  middlePedal : Nat
  rightPedal : Nat
  tunerDial : Nat      -- uint8
  gearLever : Int
  deriving Repr, DecidableEq

/-- usbd_sbattalion_out_t: the console out-report fields that
handle_sbattalion reads. -/
structure SBOut where
  Chaff_Extinguisher : Nat          -- uint8
  Comm1_MagazineChange : Nat
  Washing_LineColorChange : Nat
  CockpitHatch_EmergencyEject : Nat
  deriving Repr, DecidableEq

/-- xinput_user_data_t (master.cpp): per-slot MappingContext. -/
structure XinputUserData where
  modifiers : Nat
  button_hold_timer : Nat  -- uint32
  vmouse_x : Int           -- int32
  vmouse_y : Int
  deriving Repr, DecidableEq

/-- wButtons[off] |= mask (offsets used by the tables are 0, 1, 2). -/
def SBIn.orW (s : SBIn) (off mask : Nat) : SBIn :=
  match off with
  | 0 => { s with wButtons0 := s.wButtons0 ||| mask }
  | 1 => { s with wButtons1 := s.wButtons1 ||| mask }
  | 2 => { s with wButtons2 := s.wButtons2 ||| mask }
  | _ => s

/-- wButtons[off] ^= mask. -/
def SBIn.xorW (s : SBIn) (off mask : Nat) : SBIn :=
  match off with
  | 0 => { s with wButtons0 := s.wButtons0 ^^^ mask }
  | 1 => { s with wButtons1 := s.wButtons1 ^^^ mask }
  | 2 => { s with wButtons2 := s.wButtons2 ^^^ mask }
  | _ => s

/-- sb_map_t table entries: (source mask or chatpad code, sb mask, word
offset), mirroring master.cpp sb_pad_map. -/
def sb_pad_map : List (Nat × Nat × Nat) :=
  [(XINPUT_GAMEPAD_START, SBC_W0_START, 0),
   (XINPUT_GAMEPAD_LEFT_SHOULDER, SBC_W0_RIGHTJOYFIRE, 0),
   (XINPUT_GAMEPAD_RIGHT_THUMB, SBC_W0_RIGHTJOYLOCKON, 0),
   (XINPUT_GAMEPAD_B, SBC_W0_RIGHTJOYLOCKON, 0),
   (XINPUT_GAMEPAD_RIGHT_SHOULDER, SBC_W0_RIGHTJOYMAINWEAPON, 0),
   (XINPUT_GAMEPAD_A, SBC_W0_RIGHTJOYMAINWEAPON, 0),
   (XINPUT_GAMEPAD_XBOX_BUTTON, SBC_W0_EJECT, 0),
   (XINPUT_GAMEPAD_LEFT_THUMB, SBC_W2_LEFTJOYSIGHTCHANGE, 2),
   (XINPUT_GAMEPAD_Y, SBC_W1_CHAFF, 1)]

/-- master.cpp sb_chatpad_map. -/
def sb_chatpad_map : List (Nat × Nat × Nat) :=
  [(XINPUT_CHATPAD_0, SBC_W0_EJECT, 0),
   (XINPUT_CHATPAD_D, SBC_W1_WASHING, 1),
   (XINPUT_CHATPAD_F, SBC_W1_EXTINGUISHER, 1),
   (XINPUT_CHATPAD_G, SBC_W1_CHAFF, 1),
   (XINPUT_CHATPAD_X, SBC_W1_WEAPONCONMAIN, 1),
   (XINPUT_CHATPAD_RIGHT, SBC_W1_WEAPONCONMAIN, 1),
   (XINPUT_CHATPAD_C, SBC_W1_WEAPONCONSUB, 1),
   (XINPUT_CHATPAD_LEFT, SBC_W1_WEAPONCONSUB, 1),
   (XINPUT_CHATPAD_V, SBC_W1_WEAPONCONMAGAZINE, 1),
   (XINPUT_CHATPAD_SPACE, SBC_W1_WEAPONCONMAGAZINE, 1),
   (XINPUT_CHATPAD_U, SBC_W0_MULTIMONOPENCLOSE, 0),
   (XINPUT_CHATPAD_J, SBC_W0_MULTIMONMODESELECT, 0),
   (XINPUT_CHATPAD_N, SBC_W0_MAINMONZOOMIN, 0),
   (XINPUT_CHATPAD_I, SBC_W0_MULTIMONMAPZOOMINOUT, 0),
   (XINPUT_CHATPAD_K, SBC_W0_MULTIMONSUBMONITOR, 0),
   (XINPUT_CHATPAD_M, SBC_W0_MAINMONZOOMOUT, 0),
   (XINPUT_CHATPAD_ENTER, SBC_W0_START, 0),
   (XINPUT_CHATPAD_P, SBC_W0_COCKPITHATCH, 0),
   (XINPUT_CHATPAD_COMMA, SBC_W0_IGNITION, 0)]

/-- master.cpp sb_chatpad_alt1_map (applied while messenger held). -/
def sb_chatpad_alt1_map : List (Nat × Nat × Nat) :=
  [(XINPUT_CHATPAD_1, SBC_W1_COMM1, 1),
   (XINPUT_CHATPAD_2, SBC_W1_COMM2, 1),
   (XINPUT_CHATPAD_3, SBC_W1_COMM3, 1),
   (XINPUT_CHATPAD_4, SBC_W1_COMM4, 1),
   (XINPUT_CHATPAD_5, SBC_W2_COMM5, 2)]

/-- master.cpp sb_chatpad_alt2_map (applied when messenger not held and
orange not held). -/
def sb_chatpad_alt2_map : List (Nat × Nat × Nat) :=
  [(XINPUT_CHATPAD_1, SBC_W1_FUNCTIONF1, 1),
   (XINPUT_CHATPAD_2, SBC_W1_FUNCTIONTANKDETACH, 1),
   (XINPUT_CHATPAD_3, SBC_W0_FUNCTIONFSS, 0),
   (XINPUT_CHATPAD_4, SBC_W1_FUNCTIONF2, 1),
   (XINPUT_CHATPAD_5, SBC_W1_FUNCTIONOVERRIDE, 1),
   (XINPUT_CHATPAD_6, SBC_W0_FUNCTIONMANIPULATOR, 0),
   (XINPUT_CHATPAD_7, SBC_W1_FUNCTIONF3, 1),
   (XINPUT_CHATPAD_8, SBC_W1_FUNCTIONNIGHTSCOPE, 1),
   (XINPUT_CHATPAD_9, SBC_W0_FUNCTIONLINECOLORCHANGE, 0)]

/-- master.cpp sb_chatpad_toggle_map (XOR toggles). -/
def sb_chatpad_toggle_map : List (Nat × Nat × Nat) :=
  [(XINPUT_CHATPAD_Q, SBC_W2_TOGGLEOXYGENSUPPLY, 2),
   (XINPUT_CHATPAD_A, SBC_W2_TOGGLEFILTERCONTROL, 2),
   (XINPUT_CHATPAD_W, SBC_W2_TOGGLEVTLOCATION, 2),
   (XINPUT_CHATPAD_S, SBC_W2_TOGGLEBUFFREMATERIAL, 2),
   (XINPUT_CHATPAD_Z, SBC_W2_TOGGLEFUELFLOWRATE, 2)]

/-- One OR-into-destination mapping loop: for each table entry whose source
test fires, OR the sb mask into the destination word. -/
def sbApplyOrMap (press : Nat → Bool) (tbl : List (Nat × Nat × Nat))
    (s : SBIn) : SBIn :=
  tbl.foldl (fun s e => if press e.1 then s.orW e.2.2 e.2.1 else s) s

/-- The toggle-switch loop (master.cpp lines 392-402): each rising chatpad
edge XORs the mapped bit; the edge detector threads its history mutation. -/
def sbToggleStage (x : UsbhXinput) (s : SBIn) : UsbhXinput × SBIn :=
  sb_chatpad_toggle_map.foldl
    (fun acc e =>
      let p := usbh_xinput_was_chatpad_pressed acc.1 e.1
      (p.2, if p.1 ≠ 0 then acc.2.xorW e.2.2 e.2.1 else acc.2))
    (x, s)

/-- The three out-report-driven X-button overloads (master.cpp lines
404-415). -/
def sbXOverloadStage (wButtons : Nat) (onst : SBOut) (s : SBIn) : SBIn :=
  let s := if wButtons &&& XINPUT_GAMEPAD_X ≠ 0 ∧
              onst.Chaff_Extinguisher &&& 0x0F ≠ 0 then
             s.orW 1 SBC_W1_EXTINGUISHER else s
  let s := if wButtons &&& XINPUT_GAMEPAD_X ≠ 0 ∧
              onst.Comm1_MagazineChange &&& 0x0F ≠ 0 then
             s.orW 1 SBC_W1_WEAPONCONMAGAZINE else s
  if wButtons &&& XINPUT_GAMEPAD_X ≠ 0 ∧
     onst.Washing_LineColorChange &&& 0xF0 ≠ 0 then
    s.orW 1 SBC_W1_WASHING else s

/-- The messenger-held branch (master.cpp lines 419-447): alt1 mappings plus
the tuner dial.  The two D-pad edge tests use C short-circuit OR, so the
second edge detector only runs (and only updates its history bit) when the
first reports no edge.  tunerDial is a uint8, so increment and decrement wrap
mod 256 before the constrain to [0, 15]. -/
def sbMessengerBranch (x : UsbhXinput) (s : SBIn) : UsbhXinput × SBIn :=
  let s := sbApplyOrMap
    (fun c => usbh_xinput_is_chatpad_pressed x c != 0) sb_chatpad_alt1_map s
  let pUp := usbh_xinput_was_gamepad_pressed x XINPUT_GAMEPAD_DPAD_UP
  let inc := if pUp.1 ≠ 0 then (true, pUp.2)
             else
               let pR := usbh_xinput_was_gamepad_pressed pUp.2
                           XINPUT_GAMEPAD_DPAD_RIGHT
               (pR.1 ≠ 0, pR.2)
  let x := inc.2
  let s := if inc.1 then { s with tunerDial := (s.tunerDial + 1) % 256 } else s
  let pDown := usbh_xinput_was_gamepad_pressed x XINPUT_GAMEPAD_DPAD_DOWN
  let dec := if pDown.1 ≠ 0 then (true, pDown.2)
             else
               let pL := usbh_xinput_was_gamepad_pressed pDown.2
                           XINPUT_GAMEPAD_DPAD_LEFT
               (pL.1 ≠ 0, pL.2)
  let x := dec.2
  let s := if dec.1 then { s with tunerDial := (s.tunerDial + 255) % 256 }
           else s
  (x, { s with tunerDial := constrainN s.tunerDial 0 15 })

/-- The default branch (master.cpp lines 449-477): alt2 mappings plus the
gear lever, suppressed while D-pad left/right are held. -/
def sbAlt2Branch (x : UsbhXinput) (s : SBIn) : UsbhXinput × SBIn :=
  let s := sbApplyOrMap
    (fun c => usbh_xinput_is_chatpad_pressed x c != 0) sb_chatpad_alt2_map s
  if x.pad_state.wButtons &&&
       (XINPUT_GAMEPAD_DPAD_LEFT ||| XINPUT_GAMEPAD_DPAD_RIGHT) = 0 then
    let pUp := usbh_xinput_was_gamepad_pressed x XINPUT_GAMEPAD_DPAD_UP
    let s := if pUp.1 ≠ 0 then { s with gearLever := s.gearLever + 1 } else s
    let pDown := usbh_xinput_was_gamepad_pressed pUp.2 XINPUT_GAMEPAD_DPAD_DOWN
    let s := if pDown.1 ≠ 0 then { s with gearLever := s.gearLever - 1 }
             else s
    (pDown.2, { s with gearLever := constrainI s.gearLever SBC_GEAR_R SBC_GEAR_5 })
  else (x, s)

/-- Shift flips the whole toggle bank (master.cpp lines 479-481). -/
def sbShiftStage (x : UsbhXinput) (s : SBIn) : UsbhXinput × SBIn :=
  let p := usbh_xinput_was_chatpad_pressed x XINPUT_CHATPAD_SHIFT
  (p.2, if p.1 ≠ 0 then { s with wButtons2 := s.wButtons2 ^^^ 0xFFFC } else s)

/-- Pedals and rotation lever (master.cpp lines 483-497). -/
def sbPedalStage (x : UsbhXinput) (ps : XinputPadState) (s : SBIn) : SBIn :=
  { s with
    leftPedal := (ps.bLeftTrigger <<< 8) &&& 0xFFFF,
    rightPedal := (ps.bRightTrigger <<< 8) &&& 0xFFFF,
    middlePedal :=
      if usbh_xinput_is_chatpad_pressed x XINPUT_CHATPAD_BACK ≠ 0 then 0xFF00
      else 0,
    rotationLever :=
      if usbh_xinput_is_chatpad_pressed x XINPUT_CHATPAD_MESSENGER ≠ 0 then 0
      else if ps.wButtons &&& XINPUT_GAMEPAD_BACK ≠ 0 then 0
      else if ps.wButtons &&& XINPUT_GAMEPAD_DPAD_LEFT ≠ 0 then -32768
      else if ps.wButtons &&& XINPUT_GAMEPAD_DPAD_RIGHT ≠ 0 then 32767
      else 0 }

/-- The virtual-mouse accumulation (master.cpp lines 503-516): axis values
beyond the 7500 deadzone are divided by the sensitivity (int32 division
truncating toward zero, Int.tdiv) and accumulated, then both accumulators
are constrained to [0, UINT16_MAX]. -/
def sbVmouseStage (ps : XinputPadState) (sens : Nat) (ud : XinputUserData) :
    XinputUserData :=
  let ax := ps.sThumbRX
  let ud := if (if ax > 0 then ax else -ax) > 7500 then
              { ud with vmouse_x := ud.vmouse_x + Int.tdiv ax (sens : Int) }
            else ud
  let ay := ps.sThumbRY
  let ud := if (if ay > 0 then ay else -ay) > 7500 then
              { ud with vmouse_y := ud.vmouse_y - Int.tdiv ay (sens : Int) }
            else ud
  { ud with vmouse_x := constrainI ud.vmouse_x 0 65535,
            vmouse_y := constrainI ud.vmouse_y 0 65535 }

/-- Recentre on a >500ms left-thumb hold; releasing resets the hold timer
(master.cpp lines 518-526). -/
def sbRecentreStage (ps : XinputPadState) (now : Nat) (ud : XinputUserData) :
    XinputUserData :=
  if ps.wButtons &&& XINPUT_GAMEPAD_LEFT_THUMB ≠ 0 then
    if u32_sub now ud.button_hold_timer > 500 then
      { ud with vmouse_x := SBC_AIMING_MID, vmouse_y := SBC_AIMING_MID }
    else ud
  else { ud with button_hold_timer := now % 4294967296 }

/-- The sensitivity presets selected by chatpad codes XINPUT_CHATPAD_1 + i
(master.cpp lines 540-541; the source adds i to the code of key 1). -/
def sb_sensitivity_presets : List (Nat × Nat) :=
  [(XINPUT_CHATPAD_1 + 0, 1200), (XINPUT_CHATPAD_1 + 1, 1000),
   (XINPUT_CHATPAD_1 + 2, 800), (XINPUT_CHATPAD_1 + 3, 650),
   (XINPUT_CHATPAD_1 + 4, 400), (XINPUT_CHATPAD_1 + 5, 350),
   (XINPUT_CHATPAD_1 + 6, 300), (XINPUT_CHATPAD_1 + 7, 250),
   (XINPUT_CHATPAD_1 + 8, 200)]

/-- The sensitivity-selection loop (master.cpp lines 542-553): first rising
edge wins (break); a selection differing from the current value is persisted
(the EEPROM write is an external collaborator) and becomes the new
sensitivity. -/
def sbSensitivityLoop : UsbhXinput → Nat → List (Nat × Nat) → UsbhXinput × Nat
  | x, sens, [] => (x, sens)
  | x, sens, (code, preset) :: rest =>
      let p := usbh_xinput_was_chatpad_pressed x code
      if p.1 ≠ 0 then (p.2, if sens ≠ preset then preset else sens)
      else sbSensitivityLoop p.2 sens rest

/-- The final safety clamp (master.cpp lines 556-562): an ignition bit in the
outgoing word 0 forces the aiming outputs to zero and clears the cockpit
hatch bit (the uint16 store of w0 AND-ed with the int-promoted complement of
the hatch mask). -/
def sbIgnitionClamp (s : SBIn) : SBIn :=
  if s.wButtons0 &&& SBC_W0_IGNITION ≠ 0 then
    { s with aimingX := 0, aimingY := 0,
             wButtons0 := s.wButtons0 &&& (0xFFFF ^^^ SBC_W0_COCKPITHATCH) }
  else s

/-- C cast (uint16_t) of an int32 value. -/
def u16OfInt (v : Int) : Nat := (v % 65536).toNat

/-- The result bundle of one handle_sbattalion call: the mutated
usbh_xinput_t, the rebuilt in-report, the mapping context, and the (possibly
persisted) sensitivity. -/
structure SBResult where
  x : UsbhXinput
  sbin : SBIn
  ud : XinputUserData
  sens : Nat
  deriving Repr, DecidableEq

/-- handle_sbattalion (master.cpp lines 364-563), one tick of the cockpit
mapping path.  sout is the most recent console out-report (read only); now is
the millis() value for this tick; sens0 is the current sb_sensitivity. -/
def handle_sbattalion (x0 : UsbhXinput) (sin0 : SBIn) (sout : SBOut)
    (ud0 : XinputUserData) (sens0 : Nat) (now : Nat) : SBResult :=
  let ps := x0.pad_state
  -- rebuild: clear words 0 and 1, preserve the toggle word 2
  let s1 : SBIn := { sin0 with startByte := 0, bLength := sizeof_sbattalion_in,
                               wButtons0 := 0, wButtons1 := 0 }
  let s2 := sbApplyOrMap (fun m => ps.wButtons &&& m != 0) sb_pad_map s1
  let s3 := sbApplyOrMap
    (fun c => usbh_xinput_is_chatpad_pressed x0 c != 0) sb_chatpad_map s2
  let t4 := sbToggleStage x0 s3
  let s5 := sbXOverloadStage ps.wButtons sout t4.2
  let t6 :=
    if usbh_xinput_is_chatpad_pressed t4.1 XINPUT_CHATPAD_MESSENGER ≠ 0 ∨
       ps.wButtons &&& XINPUT_GAMEPAD_BACK ≠ 0 then
      sbMessengerBranch t4.1 s5
    else if usbh_xinput_is_chatpad_pressed t4.1 XINPUT_CHATPAD_ORANGE = 0 then
      sbAlt2Branch t4.1 s5
    else (t4.1, s5)
  let t7 := sbShiftStage t6.1 t6.2
  let s8 := sbPedalStage t7.1 ps t7.2
  let s9 := { s8 with sightChangeX := ps.sThumbLX,
                      sightChangeY := -ps.sThumbLY - 1 }
  let ud2 := sbRecentreStage ps now (sbVmouseStage ps sens0 ud0)
  let s10 := { s9 with aimingX := u16OfInt ud2.vmouse_x,
                       aimingY := u16OfInt ud2.vmouse_y }
  let rumble := (sout.Chaff_Extinguisher |||
                 (sout.Chaff_Extinguisher <<< 4) |||
                 (sout.Comm1_MagazineChange <<< 4) |||
                 (sout.CockpitHatch_EmergencyEject <<< 4)) &&& 0xFF
  let x8 := { t7.1 with lValue_requested := rumble, rValue_requested := rumble }
  let t9 :=
    if usbh_xinput_is_chatpad_pressed x8 XINPUT_CHATPAD_ORANGE ≠ 0 then
      sbSensitivityLoop x8 sens0 sb_sensitivity_presets
    else (x8, sens0)
  ⟨t9.1, sbIgnitionClamp s10, ud2, t9.2⟩

/-! ### Wire decoder: ParseInputData, Xbox 360 wired family
(usbh_xinput.cpp lines 686-758)

The C function reads the global 256-byte buffer xdata that Poll() filled from
the endpoint.  Its guards compare sizeof(xdata) — the compile-time capacity
of that global, 256 — so the freshly received transfer length never reaches
the parser. -/

/-- sizeof(xdata) in usbh_xinput.cpp: the capacity of the static global
buffer, a compile-time constant. -/
def sizeof_xdata : Nat := 256

/-- The digital-button remap of the wired-360 report (bits of bytes 2-3). -/
def wired360Buttons (wButtons : Nat) : Nat :=
  let wb := 0
  let wb := if wButtons &&& (1 <<< 0) ≠ 0 then wb ||| XINPUT_GAMEPAD_DPAD_UP else wb
  let wb := if wButtons &&& (1 <<< 1) ≠ 0 then wb ||| XINPUT_GAMEPAD_DPAD_DOWN else wb
  let wb := if wButtons &&& (1 <<< 2) ≠ 0 then wb ||| XINPUT_GAMEPAD_DPAD_LEFT else wb
  let wb := if wButtons &&& (1 <<< 3) ≠ 0 then wb ||| XINPUT_GAMEPAD_DPAD_RIGHT else wb
  let wb := if wButtons &&& (1 <<< 4) ≠ 0 then wb ||| XINPUT_GAMEPAD_START else wb
  let wb := if wButtons &&& (1 <<< 5) ≠ 0 then wb ||| XINPUT_GAMEPAD_BACK else wb
  let wb := if wButtons &&& (1 <<< 6) ≠ 0 then wb ||| XINPUT_GAMEPAD_LEFT_THUMB else wb
  let wb := if wButtons &&& (1 <<< 7) ≠ 0 then wb ||| XINPUT_GAMEPAD_RIGHT_THUMB else wb
  let wb := if wButtons &&& (1 <<< 8) ≠ 0 then wb ||| XINPUT_GAMEPAD_LEFT_SHOULDER else wb
  let wb := if wButtons &&& (1 <<< 9) ≠ 0 then wb ||| XINPUT_GAMEPAD_RIGHT_SHOULDER else wb
  let wb := if wButtons &&& (1 <<< 12) ≠ 0 then wb ||| XINPUT_GAMEPAD_A else wb
  let wb := if wButtons &&& (1 <<< 13) ≠ 0 then wb ||| XINPUT_GAMEPAD_B else wb
  let wb := if wButtons &&& (1 <<< 14) ≠ 0 then wb ||| XINPUT_GAMEPAD_X else wb
  if wButtons &&& (1 <<< 15) ≠ 0 then wb ||| XINPUT_GAMEPAD_Y else wb

/-- ParseInputData, case XBOX360_WIRED: xdata is the full content of the
global buffer (freshly transferred bytes followed by whatever the previous
transfers left there).  Returns whether a new pad report was decoded,
together with the mutated device record. -/
def parseWired360 (xdata : List Nat) (x : UsbhXinput) : Bool × UsbhXinput :=
  let d := fun i => xdata.getD i 0
  if d 0 = 0x01 ∧ 3 ≤ sizeof_xdata then
    -- controller LED requested feedback
    let led := d 2 &&& 0x0F
    let led := if led ≠ 0 then led - (if led > 5 then 5 else 1) else led
    (false, { x with led_actual := led })
  else if d 0 = 0x03 ∧ 5 ≤ sizeof_xdata then
    -- controller rumble feedback (the uint8 store truncates the << 8)
    (false, { x with lValue_actual := (d 3 <<< 8) % 256,
                     rValue_actual := (d 4 <<< 8) % 256 })
  else if d 0 ≠ 0x00 ∨ d 1 ≠ 0x14 ∨ sizeof_xdata < 14 then
    (false, x)
  else
    let wButtons := d 2 ||| (d 3 <<< 8)
    (true, { x with pad_state :=
      { wButtons := wired360Buttons wButtons,
        bLeftTrigger := d 4,
        bRightTrigger := d 5,
        sThumbLX := i16FromBytes (d 6) (d 7),
        sThumbLY := i16FromBytes (d 8) (d 9),
        sThumbRX := i16FromBytes (d 10) (d 11),
        sThumbRY := i16FromBytes (d 12) (d 13) } })

/-! ### Feedback writes: SetRumble and SetLed (usbh_xinput.cpp 540-599)

The external outTransfer result is a parameter; the C functions write the
actual fields before issuing the transfer and ignore its return value when
doing so. -/

/-- XINPUT::SetRumble: the lValue/rValue arguments only feed the packet
bytes; the actual fields are assigned from the requested fields first,
whatever the transfer outcome.  Returns the new record and the rcode the C
function returns (the transfer result for families that transmit, hrSUCCESS
otherwise). -/
def XINPUT_SetRumble (x : UsbhXinput) (lValue rValue : Nat) (now : Nat)
    (transferResult : Nat) : UsbhXinput × Nat :=
  let _ := (lValue, rValue)
  let x := { x with lValue_actual := x.lValue_requested,
                    rValue_actual := x.rValue_requested,
                    timer_out := now % 4294967296 }
  match x.type with
  | .XBOX360_WIRELESS => (x, transferResult)
  | .XBOX360_WIRED => (x, transferResult)
  | .XBOXONE => (x, transferResult)
  | .XBOXOG => (x, transferResult)
  | _ => (x, 0)

/-- XINPUT::SetLed: same shape as SetRumble for the LED quadrant. -/
def XINPUT_SetLed (x : UsbhXinput) (quadrant : Nat) (now : Nat)
    (transferResult : Nat) : UsbhXinput × Nat :=
  let _ := quadrant
  let x := { x with led_actual := x.led_requested,
                    timer_out := now % 4294967296 }
  match x.type with
  | .XBOX360_WIRELESS => (x, transferResult)
  | .XBOX360_WIRED => (x, transferResult)
  | _ => (x, 0)

/-! ### Transport multiplexer -/

/-- usbd_controller_t (main.h): one emulated player slot.  The four report
buffers are kept as raw byte lists (the bus moves them as bytes). -/
structure UsbdController where
  type : Nat           -- xid_type_t value (the status-byte low nibble)
  duke_in : List Nat
  sb_in : List Nat
  duke_out : List Nat
  sb_out : List Nat
  deriving Repr, DecidableEq

/-- i2c_get_data (slave.cpp lines 21-61): the peer-side receive handler.
buf is the received transaction (len = buf.length, the number of available
bytes).  A 0xAA ping only blinks the LED; a 0xFx status byte assigns the
slot type from the low nibble and then validates the length against the
declared family before copying the payload; everything else is drained. -/
def i2c_get_data (buf : List Nat) (c : UsbdController) : UsbdController :=
  if buf.length < 1 then c
  else
    let packet_id := buf.getD 0 0
    if packet_id = 0xAA then c
    else if packet_id &&& 0xF0 = 0xF0 then
      let ty := packet_id &&& 0x0F
      let c := { c with type := ty }
      let rxlen := if ty = XID_DUKE then sizeof_duke_in
                   else if ty = XID_STEELBATTALION then sizeof_sbattalion_in
                   else 0
      let hasBuf := ty = XID_DUKE ∨ ty = XID_STEELBATTALION
      if buf.length ≠ rxlen + 1 ∨ ¬hasBuf ∨ rxlen = 0 then c
      else if ty = XID_DUKE then { c with duke_in := (buf.drop 1).take rxlen }
      else { c with sb_in := (buf.drop 1).take rxlen }
    else c

/-- The coordinator-side exchange with one peer (master_task, master.cpp
lines 174-220): the status byte and in-report are written first; i2cError is
the Wire.endTransmission result and resp the bytes the subsequent
requestFrom makes available.  A nonzero error skips the receive entirely
(continue), leaving the slot untouched; otherwise the out-report is copied
only when exactly the expected number of bytes arrived, and the rest is
drained. -/
def masterSlaveExchange (c : UsbdController) (i2cError : Nat)
    (resp : List Nat) : UsbdController :=
  let rx_len := if c.type = XID_DUKE then sizeof_duke_out
                else if c.type = XID_STEELBATTALION then sizeof_sbattalion_out
                else 0
  if i2cError ≠ 0 then c
  else if rx_len ≠ 0 then
    if resp.length = rx_len then
      if c.type = XID_DUKE then { c with duke_out := resp.take rx_len }
      else { c with sb_out := resp.take rx_len }
    else c
  else c

/-- The for-loop of master_task over the gamepad slots: slot 0 is the local
player (continue before the bus exchange); every further slot runs its own
exchange with its own bus outcome. -/
def masterI2CLoopAux : Nat → List UsbdController → (Nat → Nat × List Nat) →
    List UsbdController
  | _, [], _ => []
  | i, c :: rest, bus =>
      (if i = 0 then c else masterSlaveExchange c (bus i).1 (bus i).2) ::
      masterI2CLoopAux (i + 1) rest bus

/-- One tick of the coordinator bus phase over all slots. -/
def masterI2CLoop (cs : List UsbdController) (bus : Nat → Nat × List Nat) :
    List UsbdController :=
  masterI2CLoopAux 0 cs bus

/-! ### Device emulation: XID_::getReport (usbd_xid.cpp lines 105-125) -/

/-- Modelled from the spec together with usbd_xid.cpp change note 3: the
cached out-report buffer xid_out_data is 32 bytes (the fixed replacement of
the VLA matches its size). -/
def sizeof_xid_out_data : Nat := 32

/-- The getReport-relevant part of the XID_ object: the cached out-report
and the timestamp of the last fresh read. -/
structure XidState where
  xid_out_data : List Nat
  xid_out_expired : Nat
  deriving Repr, DecidableEq

/-- What one getReport call produces: the bytes written into the caller
buffer, the int return value, and the new object state. -/
structure GetReportResult where
  data : List Nat
  ret : Nat
  st : XidState
  deriving Repr, DecidableEq

/-- XID_::getReport: recvLen/recvBytes are the USB_Recv outcome (an external
collaborator).  A full fresh read is cached, copied out and resets the
staleness timestamp; with no fresh data the output is zero-filled once more
than 500ms have passed since the last fresh read, and is the cached report
otherwise (returning the quirky xid_out_data[1] byte). -/
def XID_getReport (st : XidState) (now len recvLen : Nat)
    (recvBytes : List Nat) : GetReportResult :=
  let capped := min len sizeof_xid_out_data
  if recvLen = capped then
    { data := recvBytes.take capped,
      ret := capped,
      st := { xid_out_data := recvBytes.take capped ++
                              st.xid_out_data.drop capped,
              xid_out_expired := now % 4294967296 } }
  else if u32_sub now st.xid_out_expired > 500 then
    { data := List.replicate capped 0, ret := 0, st := st }
  else
    { data := st.xid_out_data.take capped,
      ret := st.xid_out_data.getD 1 0, st := st }

/-! ### Sample states used by witnesses and counterexamples -/

/-- An all-rest canonical pad state. -/
def padStateZero : XinputPadState :=
  { wButtons := 0, bLeftTrigger := 0, bRightTrigger := 0,
    sThumbLX := 0, sThumbLY := 0, sThumbRX := 0, sThumbRY := 0 }

/-- A connected wireless device record at rest. -/
def xBase : UsbhXinput :=
  { bAddress := 1, type := .XBOX360_WIRELESS, pad_state := padStateZero,
    pad_state_wButtons_old := 0,
    lValue_requested := 0, rValue_requested := 0,
    lValue_actual := 0, rValue_actual := 0,
    led_requested := 0, led_actual := 0,
    chatpad_initialised := 0, chatpad_state := [0, 0, 0],
    chatpad_state_old := [0, 0, 0], chatpad_led_requested := 0,
    chatpad_led_actual := 0, timer_out := 0, timer_periodic := 0,
    timer_poweroff := 0 }

/-- A Steel Battalion in-report at rest. -/
def sbInZero : SBIn :=
  { startByte := 0, bLength := 0, wButtons0 := 0, wButtons1 := 0,
    wButtons2 := 0, aimingX := 0, aimingY := 0, rotationLever := 0,
    sightChangeX := 0, sightChangeY := 0, leftPedal := 0, middlePedal := 0,
    rightPedal := 0, tunerDial := 0, gearLever := 0 }

/-- A Steel Battalion out-report at rest. -/
def sbOutZero : SBOut :=
  { Chaff_Extinguisher := 0, Comm1_MagazineChange := 0,
    Washing_LineColorChange := 0, CockpitHatch_EmergencyEject := 0 }

/-- A mapping context at rest. -/
def udZero : XinputUserData :=
  { modifiers := 0, button_hold_timer := 0, vmouse_x := 100, vmouse_y := 200 }

/-- A player slot with recognisable buffer contents, currently emulating the
cockpit controller. -/
def slotSB : UsbdController :=
  { type := XID_STEELBATTALION,
    duke_in := List.replicate sizeof_duke_in 7,
    sb_in := List.replicate sizeof_sbattalion_in 9,
    duke_out := List.replicate sizeof_duke_out 3,
    sb_out := List.replicate sizeof_sbattalion_out 4 }

/-! ### Claim theorems -/

/-- C10: any button mask whose set bits all sit in the high byte of the
16-bit button word is invisible to usbh_xinput_is_gamepad_pressed — its
uint8 return truncates the 16-bit AND — and consequently
usbh_xinput_was_gamepad_pressed never reports a rising edge for such a
mask. -/
theorem gamepad_pressed_high_byte_mask_invisible (x : UsbhXinput) (mask : Nat)
    (hmask : mask &&& 0xFF = 0) :
    usbh_xinput_is_gamepad_pressed x mask = 0 ∧
    (usbh_xinput_was_gamepad_pressed x mask).1 = 0 := by
  have his : usbh_xinput_is_gamepad_pressed x mask = 0 := by
    unfold usbh_xinput_is_gamepad_pressed
    split
    · rfl
    · rw [Nat.and_assoc, hmask, Nat.and_zero]
  refine ⟨his, ?_⟩
  unfold usbh_xinput_was_gamepad_pressed
  rw [his]
  simp

/-- C10 witness: the left-shoulder mask 0x0100 is reported unpressed even
while the button is held. -/
theorem gamepad_pressed_high_byte_mask_invisible_witness :
    ((0x0100 : Nat) &&& 0xFF = 0) ∧
    usbh_xinput_is_gamepad_pressed
      { xBase with pad_state := { padStateZero with wButtons := 0x0100 } }
      0x0100 = 0 := by
  refine ⟨by decide, ?_⟩
  exact (gamepad_pressed_high_byte_mask_invisible
    { xBase with pad_state := { padStateZero with wButtons := 0x0100 } }
    0x0100 (by decide)).1

/-- C3 counterexample: a SetRumble call on a wired pad whose outTransfer
fails (nonzero result) still changes lValue_actual, and a failing SetLed
still changes led_actual; the claim that the actual fields stay at their
pre-call values on a failed transport write is therefore false. -/
theorem rumble_led_actual_change_on_failed_transfer :
    (XINPUT_SetRumble
        { xBase with type := .XBOX360_WIRED, lValue_requested := 5,
                     rValue_requested := 6 } 5 6 1000 1).1.lValue_actual ≠
      ({ xBase with type := .XBOX360_WIRED, lValue_requested := 5,
                    rValue_requested := 6 } : UsbhXinput).lValue_actual ∧
    (XINPUT_SetLed
        { xBase with type := .XBOX360_WIRED, led_requested := 2 }
        2 1000 1).1.led_actual ≠
      ({ xBase with type := .XBOX360_WIRED,
                    led_requested := 2 } : UsbhXinput).led_actual := by
  constructor <;> decide

/-- C3 amended: SetRumble and SetLed assign the actual fields from the
requested fields unconditionally before the transport write, so after the
call the actual fields equal the requested ones whatever the outTransfer
result (success or failure). -/
theorem rumble_led_actual_follow_requested (x : UsbhXinput)
    (l r q now res : Nat) :
    (XINPUT_SetRumble x l r now res).1.lValue_actual = x.lValue_requested ∧
    (XINPUT_SetRumble x l r now res).1.rValue_actual = x.rValue_requested ∧
    (XINPUT_SetLed x q now res).1.led_actual = x.led_requested := by
  unfold XINPUT_SetRumble XINPUT_SetLed
  cases x.type <;> simp

/-- C7: getReport zero-fills the output once no fresh data has come for more
than 500ms; with no fresh data inside the 500ms window it hands back the
cached report unchanged; and a full fresh read is cached, copied out, and
resets the staleness timestamp. -/
theorem getreport_staleness_behaviour (st : XidState)
    (now len recvLen : Nat) (recvBytes : List Nat) :
    (recvLen ≠ min len sizeof_xid_out_data →
      u32_sub now st.xid_out_expired > 500 →
      (XID_getReport st now len recvLen recvBytes).data =
        List.replicate (min len sizeof_xid_out_data) 0 ∧
      (XID_getReport st now len recvLen recvBytes).ret = 0 ∧
      (XID_getReport st now len recvLen recvBytes).st = st) ∧
    (recvLen ≠ min len sizeof_xid_out_data →
      u32_sub now st.xid_out_expired ≤ 500 →
      (XID_getReport st now len recvLen recvBytes).data =
        st.xid_out_data.take (min len sizeof_xid_out_data) ∧
      (XID_getReport st now len recvLen recvBytes).st = st) ∧
    (recvLen = min len sizeof_xid_out_data →
      (XID_getReport st now len recvLen recvBytes).data =
        recvBytes.take (min len sizeof_xid_out_data) ∧
      (XID_getReport st now len recvLen recvBytes).st.xid_out_data =
        recvBytes.take (min len sizeof_xid_out_data) ++
          st.xid_out_data.drop (min len sizeof_xid_out_data) ∧
      (XID_getReport st now len recvLen recvBytes).st.xid_out_expired =
        now % 4294967296) := by
  unfold XID_getReport
  refine ⟨?_, ?_, ?_⟩
  · intro hfresh hstale
    rw [if_neg hfresh, if_pos hstale]
    exact ⟨rfl, rfl, rfl⟩
  · intro hfresh hrecent
    rw [if_neg hfresh, if_neg (by omega)]
    exact ⟨rfl, rfl⟩
  · intro hfresh
    rw [if_pos hfresh]
    exact ⟨rfl, rfl, rfl⟩

/-- C7 witness: with the last fresh read 499ms ago a failed read returns the
cached report, exercising the claim at the 499ms boundary. -/
theorem getreport_staleness_behaviour_witness :
    ((0 : Nat) ≠ min 6 sizeof_xid_out_data) ∧
    u32_sub 1000 501 ≤ 500 ∧
    (XID_getReport
        { xid_out_data := List.replicate 32 9, xid_out_expired := 501 }
        1000 6 0 []).data =
      (List.replicate 32 9).take (min 6 sizeof_xid_out_data) := by
  refine ⟨by decide, by decide, ?_⟩
  exact ((getreport_staleness_behaviour
    { xid_out_data := List.replicate 32 9, xid_out_expired := 501 }
    1000 6 0 []).2.1 (by decide) (by decide)).1

/-- C4 counterexample: a peer that receives the bare status byte 0xF1 (tag
0xF, declared family 1) with no payload — a length mismatch, since the
declared family expects a 20-byte report plus the status byte — still has
its target family overwritten, so the claim that a mismatch leaves the
target family unchanged is false. -/
theorem peer_status_mismatch_still_sets_family :
    (i2c_get_data [0xF1] slotSB).type ≠ slotSB.type := by
  decide

/-- C4 amended: on a coordinator-tagged status byte the peer first
overwrites the target family with the status low nibble, then validates the
length: a matching length populates the declared family in-report, while on
any mismatch the payload is discarded and both in-reports are retained —
but the already-assigned target family keeps the new value. -/
theorem peer_status_byte_handling (buf : List Nat) (c : UsbdController)
    (hlen : 1 ≤ buf.length) (htag : buf.getD 0 0 &&& 0xF0 = 0xF0) :
    (i2c_get_data buf c).type = buf.getD 0 0 &&& 0x0F ∧
    (buf.getD 0 0 &&& 0x0F = XID_DUKE →
      buf.length = sizeof_duke_in + 1 →
      (i2c_get_data buf c).duke_in = (buf.drop 1).take sizeof_duke_in ∧
      (i2c_get_data buf c).sb_in = c.sb_in) ∧
    (buf.getD 0 0 &&& 0x0F = XID_STEELBATTALION →
      buf.length = sizeof_sbattalion_in + 1 →
      (i2c_get_data buf c).sb_in = (buf.drop 1).take sizeof_sbattalion_in ∧
      (i2c_get_data buf c).duke_in = c.duke_in) ∧
    (¬(buf.getD 0 0 &&& 0x0F = XID_DUKE ∧
        buf.length = sizeof_duke_in + 1) →
     ¬(buf.getD 0 0 &&& 0x0F = XID_STEELBATTALION ∧
        buf.length = sizeof_sbattalion_in + 1) →
      (i2c_get_data buf c).duke_in = c.duke_in ∧
      (i2c_get_data buf c).sb_in = c.sb_in) := by
  match buf, hlen with
  | b :: rest, _ =>
  simp only [List.getD_cons_zero, List.length_cons, List.drop_one,
             List.tail_cons] at htag ⊢
  have hping : b ≠ 0xAA := by
    intro h; rw [h] at htag; exact absurd htag (by decide)
  by_cases hd : b &&& 0x0F = 1
  · by_cases hl : rest.length = 20
    · simp [i2c_get_data, hping, htag, hd, hl, XID_DUKE,
            XID_STEELBATTALION, sizeof_duke_in, sizeof_sbattalion_in]
    · simp [i2c_get_data, hping, htag, hd, hl, XID_DUKE,
            XID_STEELBATTALION, sizeof_duke_in, sizeof_sbattalion_in]
  · by_cases hs : b &&& 0x0F = 2
    · by_cases hl : rest.length = 26
      · simp [i2c_get_data, hping, htag, hd, hs, hl, XID_DUKE,
              XID_STEELBATTALION, sizeof_duke_in, sizeof_sbattalion_in]
      · simp [i2c_get_data, hping, htag, hd, hs, hl, XID_DUKE,
              XID_STEELBATTALION, sizeof_duke_in, sizeof_sbattalion_in]
    · simp [i2c_get_data, hping, htag, hd, hs, XID_DUKE,
            XID_STEELBATTALION, sizeof_duke_in, sizeof_sbattalion_in]

/-- C4 witness: a well-formed 21-byte standard-gamepad transaction populates
slot family and in-report. -/
theorem peer_status_byte_handling_witness :
    (1 ≤ ([0xF1] ++ List.replicate 20 5 : List Nat).length) ∧
    (i2c_get_data ([0xF1] ++ List.replicate 20 5) slotSB).type = 1 ∧
    (i2c_get_data ([0xF1] ++ List.replicate 20 5) slotSB).duke_in =
      ((([0xF1] ++ List.replicate 20 5 : List Nat)).drop 1).take
        sizeof_duke_in := by
  refine ⟨by decide, ?_, ?_⟩
  · exact (peer_status_byte_handling ([0xF1] ++ List.replicate 20 5) slotSB
      (by decide) (by decide)).1
  · exact ((peer_status_byte_handling ([0xF1] ++ List.replicate 20 5) slotSB
      (by decide) (by decide)).2.1 (by decide) (by decide)).1

/-- The element-wise description of the coordinator loop: every slot after
index 0 is exchanged with its own bus outcome, independently of the other
slots. -/
theorem masterI2CLoopAux_getD (d : UsbdController)
    (bus : Nat → Nat × List Nat) :
    ∀ (cs : List UsbdController) (k i : Nat), i < cs.length →
      (masterI2CLoopAux k cs bus).getD i d =
        if k + i = 0 then cs.getD i d
        else masterSlaveExchange (cs.getD i d) (bus (k + i)).1
               (bus (k + i)).2 := by
  intro cs
  induction cs with
  | nil => intro k i h; simp at h
  | cons c rest ih =>
      intro k i h
      cases i with
      | zero => simp [masterI2CLoopAux]
      | succ j =>
          have hj : j < rest.length := by simpa using h
          have heq : (masterI2CLoopAux k (c :: rest) bus).getD (j + 1) d =
              (masterI2CLoopAux (k + 1) rest bus).getD j d := by
            simp [masterI2CLoopAux]
          rw [heq, ih (k + 1) j hj]
          rw [if_neg (by omega), if_neg (by omega)]
          have harg : k + 1 + j = k + (j + 1) := by omega
          rw [harg]
          simp

/-- C9: in the coordinator bus phase of one tick, a failed send
(endTransmission error) makes that peer exchange a no-op — the slot,
including its inbound-from-peer out-report buffers, is left exactly as it
was — and each peer slot is processed with its own bus outcome regardless
of any other peer failing, so an error never aborts the loop. -/
theorem master_send_failure_skips_receive (cs : List UsbdController)
    (bus : Nat → Nat × List Nat) (d : UsbdController) :
    (∀ i, i < cs.length → i ≠ 0 →
      (masterI2CLoop cs bus).getD i d =
        masterSlaveExchange (cs.getD i d) (bus i).1 (bus i).2) ∧
    (∀ (c : UsbdController) (err : Nat) (resp : List Nat), err ≠ 0 →
      masterSlaveExchange c err resp = c) := by
  constructor
  · intro i hi hne
    have := masterI2CLoopAux_getD d bus cs 0 i hi
    simpa [masterI2CLoop, Nat.zero_add, hne] using this
  · intro c err resp herr
    unfold masterSlaveExchange
    rw [if_pos herr]

/-- C9 witness: with peer 1 failing its send, slot 1 is untouched this tick
while peer 2 still receives its response. -/
theorem master_send_failure_skips_receive_witness :
    ((1 : Nat) < 4) ∧ ((1 : Nat) ≠ 0) ∧ ((5 : Nat) ≠ 0) ∧
    (masterI2CLoop [slotSB, slotSB, slotSB, slotSB]
        (fun i => if i = 1 then (5, []) else
                  (0, List.replicate 22 8))).getD 1 slotSB = slotSB ∧
    (masterI2CLoop [slotSB, slotSB, slotSB, slotSB]
        (fun i => if i = 1 then (5, []) else
                  (0, List.replicate 22 8))).getD 2 slotSB =
      { slotSB with sb_out := List.replicate 22 8 } := by
  refine ⟨by decide, by decide, by decide, ?_, ?_⟩
  · have h := (master_send_failure_skips_receive
      [slotSB, slotSB, slotSB, slotSB]
      (fun i => if i = 1 then (5, []) else (0, List.replicate 22 8))
      slotSB).1 1 (by decide) (by decide)
    rw [h]
    exact (master_send_failure_skips_receive
      [slotSB, slotSB, slotSB, slotSB]
      (fun i => if i = 1 then (5, []) else (0, List.replicate 22 8))
      slotSB).2 _ 5 [] (by decide)
  · have h := (master_send_failure_skips_receive
      [slotSB, slotSB, slotSB, slotSB]
      (fun i => if i = 1 then (5, []) else (0, List.replicate 22 8))
      slotSB).1 2 (by decide) (by decide)
    rw [h]
    decide

/-- The freshly received 13-byte wired-360 transfer of the C2 failing input:
one byte short of the 14-byte family minimum, with a D-pad bit set. -/
def freshWired13 : List Nat := [0x00, 0x14, 0x01, 0, 0, 0, 0, 0, 0, 0, 0, 0, 0]

/-- C2: the wired-360 parser accepts a transfer one byte short of the
family minimum — its length guards compare sizeof(xdata), the 256-byte
capacity of the global buffer, never the received length — so it overwrites
pad_state from the short buffer (plus stale tail bytes) and reports a new
pad report, where the claim requires the pad state untouched and a false
return. -/
theorem parse_wired_short_buffer_still_decodes :
    freshWired13.length = 13 ∧ (13 : Nat) < 14 ∧
    (parseWired360 (freshWired13 ++ List.replicate 243 0)
        { xBase with type := .XBOX360_WIRED }).1 = true ∧
    (parseWired360 (freshWired13 ++ List.replicate 243 0)
        { xBase with type := .XBOX360_WIRED }).2.pad_state.wButtons =
      XINPUT_GAMEPAD_DPAD_UP ∧
    (parseWired360 (freshWired13 ++ List.replicate 243 0)
        { xBase with type := .XBOX360_WIRED }).2.pad_state ≠
      ({ xBase with type := .XBOX360_WIRED } : UsbhXinput).pad_state := by
  refine ⟨by decide, by decide, by decide, by decide, by decide⟩

/-! ### Behaviour of the chatpad edge detector -/

/-- A rising edge: the key is down, absent from the history, and a free slot
exists, so the detector claims the slot and reports 1. -/
theorem wasChatpad_risingEdge (x : UsbhXinput) (code : Nat) (h1 : List Nat)
    (hdown : usbh_xinput_is_chatpad_pressed x code = 1)
    (h0 : x.chatpad_state_old.getD 0 0 ≠ code)
    (h1' : x.chatpad_state_old.getD 1 0 ≠ code)
    (h2 : x.chatpad_state_old.getD 2 0 ≠ code)
    (hclaim : claimFreeSlot x.chatpad_state_old code = some h1) :
    usbh_xinput_was_chatpad_pressed x code =
      (1, { x with chatpad_state_old := h1 }) := by
  unfold usbh_xinput_was_chatpad_pressed
  rw [hdown]
  rw [if_neg (by omega), if_pos ⟨h0, h1', h2⟩, hclaim]

/-- Held and already recorded: the detector reports 0 and leaves the record
alone. -/
theorem wasChatpad_held (x : UsbhXinput) (code : Nat)
    (hdown : usbh_xinput_is_chatpad_pressed x code = 1)
    (hmem : x.chatpad_state_old.getD 0 0 = code ∨
            x.chatpad_state_old.getD 1 0 = code ∨
            x.chatpad_state_old.getD 2 0 = code) :
    usbh_xinput_was_chatpad_pressed x code = (0, x) := by
  unfold usbh_xinput_was_chatpad_pressed
  rw [hdown]
  rw [if_neg (by omega), if_neg (by tauto)]

/-- Released: the detector clears the key from the history and reports 0. -/
theorem wasChatpad_release (x : UsbhXinput) (code : Nat)
    (hup : usbh_xinput_is_chatpad_pressed x code = 0) :
    usbh_xinput_was_chatpad_pressed x code =
      (0, { x with chatpad_state_old :=
              x.chatpad_state_old.map (fun v => if v = code then 0 else v) }) := by
  unfold usbh_xinput_was_chatpad_pressed
  rw [if_pos hup]

/-- A key code the decoder can report as down is never 0, and the device is
never the free slot. -/
theorem isChatpad_down_facts (x : UsbhXinput) (code : Nat)
    (hdown : usbh_xinput_is_chatpad_pressed x code = 1) :
    code ≠ 0 ∧ x.bAddress ≠ 0 := by
  constructor
  · intro h
    rw [h] at hdown
    unfold usbh_xinput_is_chatpad_pressed at hdown
    simp at hdown
  · intro h
    unfold usbh_xinput_is_chatpad_pressed at hdown
    rw [if_pos h] at hdown
    exact absurd hdown (by omega)

/-- With the live chatpad state all zero, no nonzero code reads as down. -/
theorem isChatpad_state_zero (x : UsbhXinput) (code : Nat)
    (hcs : x.chatpad_state = [0, 0, 0]) (hcode : code ≠ 0) :
    usbh_xinput_is_chatpad_pressed x code = 0 := by
  unfold usbh_xinput_is_chatpad_pressed
  rw [hcs]
  simp [Ne.symm hcode]

/-- C5: with the key down, absent from the 3-slot history, and a free slot
available, the edge detector reports 1 exactly once: the first call claims a
slot and returns 1; calling again while the key stays held returns 0 and
changes nothing; a call after release returns 0 and frees the slot,
restoring the original history; and a further call with the key down again
reports a fresh rising edge. -/
theorem chatpad_was_pressed_once_per_press (x : UsbhXinput) (code a b c : Nat)
    (hhist : x.chatpad_state_old = [a, b, c])
    (hdown : usbh_xinput_is_chatpad_pressed x code = 1)
    (hna : code ≠ a) (hnb : code ≠ b) (hnc : code ≠ c)
    (hfree : a = 0 ∨ b = 0 ∨ c = 0) :
    (usbh_xinput_was_chatpad_pressed x code).1 = 1 ∧
    (usbh_xinput_was_chatpad_pressed
      (usbh_xinput_was_chatpad_pressed x code).2 code).1 = 0 ∧
    (usbh_xinput_was_chatpad_pressed
      (usbh_xinput_was_chatpad_pressed x code).2 code).2 =
      (usbh_xinput_was_chatpad_pressed x code).2 ∧
    (usbh_xinput_was_chatpad_pressed
      { (usbh_xinput_was_chatpad_pressed x code).2 with
        chatpad_state := [0, 0, 0] } code).1 = 0 ∧
    (usbh_xinput_was_chatpad_pressed
      { (usbh_xinput_was_chatpad_pressed x code).2 with
        chatpad_state := [0, 0, 0] } code).2.chatpad_state_old = [a, b, c] ∧
    (usbh_xinput_was_chatpad_pressed
      { (usbh_xinput_was_chatpad_pressed
          { (usbh_xinput_was_chatpad_pressed x code).2 with
            chatpad_state := [0, 0, 0] } code).2 with
        chatpad_state := x.chatpad_state } code).1 = 1 := by
  obtain ⟨hcode0, -⟩ := isChatpad_down_facts x code hdown
  by_cases ha : a = 0
  · subst ha
    have hp1 := wasChatpad_risingEdge x code [code, b, c] hdown
      (by rw [hhist]; simpa using Ne.symm hcode0)
      (by rw [hhist]; simpa using Ne.symm hnb)
      (by rw [hhist]; simpa using Ne.symm hnc)
      (by rw [hhist]; simp [claimFreeSlot])
    have hp2 : usbh_xinput_was_chatpad_pressed
        { x with chatpad_state_old := [code, b, c] } code =
        (0, { x with chatpad_state_old := [code, b, c] }) :=
      wasChatpad_held _ code hdown (Or.inl rfl)
    have hp3 : usbh_xinput_was_chatpad_pressed
        { x with chatpad_state := [0, 0, 0],
                 chatpad_state_old := [code, b, c] } code =
        (0, { x with chatpad_state := [0, 0, 0],
                     chatpad_state_old := [0, b, c] }) := by
      have := wasChatpad_release
        { x with chatpad_state := [0, 0, 0],
                 chatpad_state_old := [code, b, c] } code
        (isChatpad_state_zero _ code rfl hcode0)
      simpa [Ne.symm hnb, Ne.symm hnc] using this
    have hp4 := wasChatpad_risingEdge
      { x with chatpad_state_old := [0, b, c] } code [code, b, c] hdown
      (by simpa using Ne.symm hcode0)
      (by simpa using Ne.symm hnb)
      (by simpa using Ne.symm hnc)
      (by simp [claimFreeSlot])
    simp [hp1, hp2, hp3, hp4]
  · by_cases hb : b = 0
    · subst hb
      have hp1 := wasChatpad_risingEdge x code [a, code, c] hdown
        (by rw [hhist]; simpa using Ne.symm hna)
        (by rw [hhist]; simpa using Ne.symm hcode0)
        (by rw [hhist]; simpa using Ne.symm hnc)
        (by rw [hhist]; simp [claimFreeSlot, ha])
      have hp2 : usbh_xinput_was_chatpad_pressed
          { x with chatpad_state_old := [a, code, c] } code =
          (0, { x with chatpad_state_old := [a, code, c] }) :=
        wasChatpad_held _ code hdown (Or.inr (Or.inl rfl))
      have hp3 : usbh_xinput_was_chatpad_pressed
          { x with chatpad_state := [0, 0, 0],
                   chatpad_state_old := [a, code, c] } code =
          (0, { x with chatpad_state := [0, 0, 0],
                       chatpad_state_old := [a, 0, c] }) := by
        have := wasChatpad_release
          { x with chatpad_state := [0, 0, 0],
                   chatpad_state_old := [a, code, c] } code
          (isChatpad_state_zero _ code rfl hcode0)
        simpa [Ne.symm hna, Ne.symm hnc] using this
      have hp4 := wasChatpad_risingEdge
        { x with chatpad_state_old := [a, 0, c] } code [a, code, c] hdown
        (by simpa using Ne.symm hna)
        (by simpa using Ne.symm hcode0)
        (by simpa using Ne.symm hnc)
        (by simp [claimFreeSlot, ha])
      simp [hp1, hp2, hp3, hp4]
    · have hc : c = 0 := by tauto
      subst hc
      have hp1 := wasChatpad_risingEdge x code [a, b, code] hdown
        (by rw [hhist]; simpa using Ne.symm hna)
        (by rw [hhist]; simpa using Ne.symm hnb)
        (by rw [hhist]; simpa using Ne.symm hcode0)
        (by rw [hhist]; simp [claimFreeSlot, ha, hb])
      have hp2 : usbh_xinput_was_chatpad_pressed
          { x with chatpad_state_old := [a, b, code] } code =
          (0, { x with chatpad_state_old := [a, b, code] }) :=
        wasChatpad_held _ code hdown (Or.inr (Or.inr rfl))
      have hp3 : usbh_xinput_was_chatpad_pressed
          { x with chatpad_state := [0, 0, 0],
                   chatpad_state_old := [a, b, code] } code =
          (0, { x with chatpad_state := [0, 0, 0],
                       chatpad_state_old := [a, b, 0] }) := by
        have := wasChatpad_release
          { x with chatpad_state := [0, 0, 0],
                   chatpad_state_old := [a, b, code] } code
          (isChatpad_state_zero _ code rfl hcode0)
        simpa [Ne.symm hna, Ne.symm hnb] using this
      have hp4 := wasChatpad_risingEdge
        { x with chatpad_state_old := [a, b, 0] } code [a, b, code] hdown
        (by simpa using Ne.symm hna)
        (by simpa using Ne.symm hnb)
        (by simpa using Ne.symm hcode0)
        (by simp [claimFreeSlot, ha, hb])
      simp [hp1, hp2, hp3, hp4]

/-- C5 witness: key Q (code 39) held, then released, then pressed again,
starting from an empty history. -/
theorem chatpad_was_pressed_once_per_press_witness :
    ({ xBase with chatpad_state := [0, 39, 0] } :
        UsbhXinput).chatpad_state_old = [0, 0, 0] ∧
    usbh_xinput_is_chatpad_pressed
      { xBase with chatpad_state := [0, 39, 0] } 39 = 1 ∧
    (usbh_xinput_was_chatpad_pressed
      { xBase with chatpad_state := [0, 39, 0] } 39).1 = 1 ∧
    (usbh_xinput_was_chatpad_pressed
      (usbh_xinput_was_chatpad_pressed
        { xBase with chatpad_state := [0, 39, 0] } 39).2 39).1 = 0 := by
  refine ⟨by decide, by decide, ?_, ?_⟩
  · exact (chatpad_was_pressed_once_per_press
      { xBase with chatpad_state := [0, 39, 0] } 39 0 0 0 (by decide)
      (by decide) (by decide) (by decide) (by decide) (Or.inl rfl)).1
  · exact (chatpad_was_pressed_once_per_press
      { xBase with chatpad_state := [0, 39, 0] } 39 0 0 0 (by decide)
      (by decide) (by decide) (by decide) (by decide) (Or.inl rfl)).2.1

/-- The safety clamp alone satisfies the ignition invariant: whatever report
it receives, if the ignition bit survives in its output then the aiming
outputs are zero and the hatch bit is clear. -/
theorem sbIgnitionClamp_invariant (s : SBIn) :
    (sbIgnitionClamp s).wButtons0 &&& SBC_W0_IGNITION ≠ 0 →
    (sbIgnitionClamp s).aimingX = 0 ∧ (sbIgnitionClamp s).aimingY = 0 ∧
    (sbIgnitionClamp s).wButtons0 &&& SBC_W0_COCKPITHATCH = 0 := by
  unfold sbIgnitionClamp
  split
  · intro _
    refine ⟨rfl, rfl, ?_⟩
    show s.wButtons0 &&& (0xFFFF ^^^ SBC_W0_COCKPITHATCH) &&&
        SBC_W0_COCKPITHATCH = 0
    have h16 : (0xFFFF ^^^ SBC_W0_COCKPITHATCH) &&& SBC_W0_COCKPITHATCH = 0 := by
      decide
    rw [Nat.and_assoc, h16, Nat.and_zero]
  · intro h
    exact absurd h (by assumption)

/-- C1: at the end of every handle_sbattalion call, an ignition bit set in
word 0 of the mapped in-report forces both aiming outputs to zero and the
cockpit-hatch bit clear, whatever the controller input, chatpad state, prior
mapping context and console out-report were. -/
theorem sbattalion_ignition_invariant (x0 : UsbhXinput) (sin0 : SBIn)
    (sout : SBOut) (ud0 : XinputUserData) (sens0 now : Nat)
    (hign : (handle_sbattalion x0 sin0 sout ud0 sens0 now).sbin.wButtons0 &&&
        SBC_W0_IGNITION ≠ 0) :
    (handle_sbattalion x0 sin0 sout ud0 sens0 now).sbin.aimingX = 0 ∧
    (handle_sbattalion x0 sin0 sout ud0 sens0 now).sbin.aimingY = 0 ∧
    (handle_sbattalion x0 sin0 sout ud0 sens0 now).sbin.wButtons0 &&&
      SBC_W0_COCKPITHATCH = 0 :=
  sbIgnitionClamp_invariant _ hign

/-- C1 witness: the chatpad comma key maps to the ignition bit, so pressing
it produces a final report with ignition set, zero aiming, and hatch
clear. -/
theorem sbattalion_ignition_invariant_witness :
    ((handle_sbattalion { xBase with chatpad_state := [0, 98, 0] } sbInZero
        sbOutZero udZero 400 1000).sbin.wButtons0 &&& SBC_W0_IGNITION ≠ 0) ∧
    (handle_sbattalion { xBase with chatpad_state := [0, 98, 0] } sbInZero
        sbOutZero udZero 400 1000).sbin.aimingX = 0 := by
  refine ⟨by decide, ?_⟩
  exact (sbattalion_ignition_invariant { xBase with chatpad_state := [0, 98, 0] }
    sbInZero sbOutZero udZero 400 1000 (by decide)).1

/-- The constrain clamp really lands in the requested interval. -/
theorem constrainI_mem (a lo hi : Int) (h : lo ≤ hi) :
    lo ≤ constrainI a lo hi ∧ constrainI a lo hi ≤ hi := by
  unfold constrainI
  split
  · omega
  · split
    · omega
    · next h1 h2 => exact ⟨by omega, by omega⟩

/-- The virtual-mouse stage leaves both accumulators inside [0, 65535]. -/
theorem sbVmouseStage_bounds (ps : XinputPadState) (sens : Nat)
    (ud : XinputUserData) :
    0 ≤ (sbVmouseStage ps sens ud).vmouse_x ∧
    (sbVmouseStage ps sens ud).vmouse_x ≤ 65535 ∧
    0 ≤ (sbVmouseStage ps sens ud).vmouse_y ∧
    (sbVmouseStage ps sens ud).vmouse_y ≤ 65535 := by
  unfold sbVmouseStage
  refine ⟨(constrainI_mem _ _ _ (by norm_num)).1,
          (constrainI_mem _ _ _ (by norm_num)).2,
          (constrainI_mem _ _ _ (by norm_num)).1,
          (constrainI_mem _ _ _ (by norm_num)).2⟩

/-- The virtual-mouse stage does not touch the hold timer. -/
theorem sbVmouseStage_timer (ps : XinputPadState) (sens : Nat)
    (ud : XinputUserData) :
    (sbVmouseStage ps sens ud).button_hold_timer = ud.button_hold_timer := by
  by_cases h1 : (if ps.sThumbRX > 0 then ps.sThumbRX else -ps.sThumbRX) > 7500 <;>
  by_cases h2 : (if ps.sThumbRY > 0 then ps.sThumbRY else -ps.sThumbRY) > 7500 <;>
  simp [sbVmouseStage, h1, h2]

/-- C6: after every handle_sbattalion call both virtual-pointer
accumulators lie in [0, 65535], whatever the axis inputs and sensitivity;
if the left-stick click is held and the hold timer shows more than 500ms,
both accumulators are forced to the midpoint; and with the button released
the hold timer is reset to the current tick time. -/
theorem sbattalion_vmouse_invariant (x0 : UsbhXinput) (sin0 : SBIn)
    (sout : SBOut) (ud0 : XinputUserData) (sens0 now : Nat) :
    (0 ≤ (handle_sbattalion x0 sin0 sout ud0 sens0 now).ud.vmouse_x ∧
     (handle_sbattalion x0 sin0 sout ud0 sens0 now).ud.vmouse_x ≤ 65535 ∧
     0 ≤ (handle_sbattalion x0 sin0 sout ud0 sens0 now).ud.vmouse_y ∧
     (handle_sbattalion x0 sin0 sout ud0 sens0 now).ud.vmouse_y ≤ 65535) ∧
    (x0.pad_state.wButtons &&& XINPUT_GAMEPAD_LEFT_THUMB ≠ 0 →
     u32_sub now ud0.button_hold_timer > 500 →
     (handle_sbattalion x0 sin0 sout ud0 sens0 now).ud.vmouse_x =
        SBC_AIMING_MID ∧
     (handle_sbattalion x0 sin0 sout ud0 sens0 now).ud.vmouse_y =
        SBC_AIMING_MID) ∧
    (x0.pad_state.wButtons &&& XINPUT_GAMEPAD_LEFT_THUMB = 0 →
     (handle_sbattalion x0 sin0 sout ud0 sens0 now).ud.button_hold_timer =
        now % 4294967296) := by
  have hud : (handle_sbattalion x0 sin0 sout ud0 sens0 now).ud =
      sbRecentreStage x0.pad_state now
        (sbVmouseStage x0.pad_state sens0 ud0) := rfl
  rw [hud]
  have hb := sbVmouseStage_bounds x0.pad_state sens0 ud0
  have ht := sbVmouseStage_timer x0.pad_state sens0 ud0
  unfold sbRecentreStage
  by_cases hthumb : x0.pad_state.wButtons &&& XINPUT_GAMEPAD_LEFT_THUMB ≠ 0
  · rw [if_pos hthumb, ht]
    by_cases helapsed : u32_sub now ud0.button_hold_timer > 500
    · rw [if_pos helapsed]
      refine ⟨⟨by norm_num [SBC_AIMING_MID], by norm_num [SBC_AIMING_MID],
               by norm_num [SBC_AIMING_MID], by norm_num [SBC_AIMING_MID]⟩,
              fun _ _ => ⟨rfl, rfl⟩, fun habs => absurd habs hthumb⟩
    · rw [if_neg helapsed]
      exact ⟨hb, fun _ he => absurd he helapsed,
             fun habs => absurd habs hthumb⟩
  · rw [if_neg hthumb]
    exact ⟨hb, fun hth => absurd hth hthumb, fun _ => rfl⟩

/-- C6 witness: with the recentre button held for 600ms the accumulators are
forced to the midpoint (which is inside the documented range). -/
theorem sbattalion_vmouse_invariant_witness :
    (({ xBase with pad_state :=
          { padStateZero with wButtons := 0x0040 } } :
        UsbhXinput).pad_state.wButtons &&& XINPUT_GAMEPAD_LEFT_THUMB ≠ 0) ∧
    u32_sub 600 0 > 500 ∧
    (handle_sbattalion
        { xBase with pad_state := { padStateZero with wButtons := 0x0040 } }
        sbInZero sbOutZero udZero 400 600).ud.vmouse_x = SBC_AIMING_MID ∧
    0 ≤ (handle_sbattalion
        { xBase with pad_state := { padStateZero with wButtons := 0x0040 } }
        sbInZero sbOutZero udZero 400 600).ud.vmouse_x := by
  refine ⟨by decide, by decide, ?_, ?_⟩
  · exact ((sbattalion_vmouse_invariant
      { xBase with pad_state := { padStateZero with wButtons := 0x0040 } }
      sbInZero sbOutZero udZero 400 600).2.1 (by decide) (by decide)).1
  · exact (sbattalion_vmouse_invariant
      { xBase with pad_state := { padStateZero with wButtons := 0x0040 } }
      sbInZero sbOutZero udZero 400 600).1.1

/-! ### The toggle-switch involution (C8)

The parametric device records below drive one press-release-press cycle of a
single chatpad key through consecutive mapping ticks, with the pad itself at
rest so that only the chatpad edge acts.  The cycle is proved for every entry
of the toggle table. -/

/-- A connected pad with the given chatpad key down and an empty edge
history. -/
def toggleKeyDown (code : Nat) : UsbhXinput :=
  { xBase with chatpad_state := [0, code, 0] }

/-- The same pad after the edge detector claimed a history slot for the
key. -/
def toggleKeyClaimed (code : Nat) : UsbhXinput :=
  { xBase with chatpad_state := [0, code, 0],
               chatpad_state_old := [code, 0, 0] }

/-- The pad with the key released while the history still holds it. -/
def toggleKeyUp (code : Nat) : UsbhXinput :=
  { xBase with chatpad_state := [0, 0, 0],
               chatpad_state_old := [code, 0, 0] }

/-- The pad with the key released and the history slot freed again. -/
def xFree : UsbhXinput := { xBase with chatpad_state := [0, 0, 0] }

/-- A mapping loop in which no table entry fires leaves the report
unchanged. -/
theorem sbApplyOrMap_all_false (press : Nat → Bool)
    (tbl : List (Nat × Nat × Nat)) (h : ∀ e ∈ tbl, press e.1 = false) :
    ∀ s, sbApplyOrMap press tbl s = s := by
  induction tbl with
  | nil => intro s; rfl
  | cons e rest ih =>
      intro s
      have he : press e.1 = false := h e (List.mem_cons_self e rest)
      have hr : ∀ e2 ∈ rest, press e2.1 = false :=
        fun e2 m => h e2 (List.mem_cons_of_mem e m)
      unfold sbApplyOrMap at ih ⊢
      rw [List.foldl_cons, if_neg (by simp [he])]
      exact ih hr s

/-- The constantly false press function fires nothing. -/
theorem sbApplyOrMap_false (tbl : List (Nat × Nat × Nat)) (s : SBIn) :
    sbApplyOrMap (fun _ => false) tbl s = s :=
  sbApplyOrMap_all_false _ tbl (fun _ _ => rfl) s

/-- With no buttons held the out-report-driven X overloads do nothing. -/
theorem sbXOverloadStage_idle (onst : SBOut) (s : SBIn) :
    sbXOverloadStage 0 onst s = s := by
  simp [sbXOverloadStage, XINPUT_GAMEPAD_X]

/-- The chatpad query ignores the rumble request fields. -/
theorem isChatpad_set_rumble (x : UsbhXinput) (l r code : Nat) :
    usbh_xinput_is_chatpad_pressed
      { x with lValue_requested := l, rValue_requested := r } code =
      usbh_xinput_is_chatpad_pressed x code := rfl

/-- The ignition clamp never touches the toggle word. -/
theorem sbIgnitionClamp_w2 (s : SBIn) :
    (sbIgnitionClamp s).wButtons2 = s.wButtons2 := by
  unfold sbIgnitionClamp; split <;> rfl

/-- With no alternate-table key and no D-pad edge, the default branch only
constrains the gear lever. -/
theorem sbAlt2Branch_idle (x : UsbhXinput)
    (hmap : ∀ s, sbApplyOrMap
      (fun c => usbh_xinput_is_chatpad_pressed x c != 0) sb_chatpad_alt2_map
      s = s)
    (h7 : usbh_xinput_was_gamepad_pressed x XINPUT_GAMEPAD_DPAD_UP = (0, x))
    (h8 : usbh_xinput_was_gamepad_pressed x XINPUT_GAMEPAD_DPAD_DOWN = (0, x))
    (hguard : x.pad_state.wButtons &&&
      (XINPUT_GAMEPAD_DPAD_LEFT ||| XINPUT_GAMEPAD_DPAD_RIGHT) = 0) :
    ∀ s, sbAlt2Branch x s =
      (x, { s with gearLever :=
              constrainI s.gearLever SBC_GEAR_R SBC_GEAR_5 }) := by
  intro s
  simp [sbAlt2Branch, hmap, h7, h8, hguard]

/-- Without a shift edge the toggle bank is not flipped en masse. -/
theorem sbShiftStage_idle (x : UsbhXinput)
    (h6 : usbh_xinput_was_chatpad_pressed x XINPUT_CHATPAD_SHIFT = (0, x)) :
    ∀ s, sbShiftStage x s = (x, s) := by
  intro s
  simp [sbShiftStage, h6]

/-- With triggers and buttons at rest the pedal stage writes only zeros. -/
theorem sbPedalStage_idle (x : UsbhXinput) (ps : XinputPadState)
    (hb : usbh_xinput_is_chatpad_pressed x XINPUT_CHATPAD_BACK = 0)
    (hm : usbh_xinput_is_chatpad_pressed x XINPUT_CHATPAD_MESSENGER = 0)
    (hw : ps.wButtons = 0) (hl : ps.bLeftTrigger = 0)
    (hr : ps.bRightTrigger = 0) :
    ∀ s, sbPedalStage x ps s =
      { s with leftPedal := 0, rightPedal := 0, middlePedal := 0,
               rotationLever := 0 } := by
  intro s
  simp [sbPedalStage, hb, hm, hw, hl, hr]

/-- Clearing the live chatpad state of the post-tick record gives exactly
the released record of the same key. -/
theorem keyDown_to_up (code : Nat) :
    ({ { toggleKeyClaimed code with lValue_requested := 0, rValue_requested := 0 } with chatpad_state := [0, 0, 0] } :
      UsbhXinput) = toggleKeyUp code := rfl

/-- Pressing the key again after the freed-slot tick gives exactly the
key-down record. -/
theorem keyUp_to_down (code : Nat) :
    ({ { xFree with lValue_requested := 0, rValue_requested := 0 } with
       chatpad_state := [0, code, 0] } : UsbhXinput) =
      toggleKeyDown code := rfl

set_option maxHeartbeats 1000000 in
/-- A full mapping tick with one toggle-mapped key newly down: the device
record gains the history entry, the sensitivity is passed through, and the
toggle word is the previous toggle word with the mapped mask XOR-ed in. -/
theorem call_toggle_down (xd xc : UsbhXinput) (mask : Nat)
    (hwb : xd.pad_state.wButtons = 0)
    (htog : ∀ s, sbToggleStage xd s = (xc, SBIn.xorW s 2 mask))
    (hchat : ∀ s, sbApplyOrMap
      (fun c => usbh_xinput_is_chatpad_pressed xd c != 0) sb_chatpad_map
      s = s)
    (halt : ∀ s, sbAlt2Branch xc s =
      (xc, { s with gearLever :=
               constrainI s.gearLever SBC_GEAR_R SBC_GEAR_5 }))
    (hshift : ∀ s, sbShiftStage xc s = (xc, s))
    (hped : ∀ s, sbPedalStage xc xd.pad_state s =
      { s with leftPedal := 0, rightPedal := 0, middlePedal := 0,
               rotationLever := 0 })
    (hcondM : usbh_xinput_is_chatpad_pressed xc XINPUT_CHATPAD_MESSENGER = 0)
    (hcondO : usbh_xinput_is_chatpad_pressed xc XINPUT_CHATPAD_ORANGE = 0) :
    ∀ (sin0 : SBIn) (ud0 : XinputUserData) (sens0 now : Nat),
    (handle_sbattalion xd sin0 sbOutZero ud0 sens0 now).x =
      { xc with lValue_requested := 0, rValue_requested := 0 } ∧
    (handle_sbattalion xd sin0 sbOutZero ud0 sens0 now).sens = sens0 ∧
    (handle_sbattalion xd sin0 sbOutZero ud0 sens0 now).sbin.wButtons2 =
      sin0.wButtons2 ^^^ mask := by
  intro sin0 ud0 sens0 now
  have hR : (sbOutZero.Chaff_Extinguisher |||
             (sbOutZero.Chaff_Extinguisher <<< 4) |||
             (sbOutZero.Comm1_MagazineChange <<< 4) |||
             (sbOutZero.CockpitHatch_EmergencyEject <<< 4)) &&& 0xFF = 0 := by
    decide
  simp [handle_sbattalion, sbApplyOrMap_false, hchat, htog, halt, hshift,
        hped, hcondM, hcondO, hwb, hR, sbXOverloadStage_idle,
        isChatpad_set_rumble, sbIgnitionClamp_w2, SBIn.xorW,
        XINPUT_GAMEPAD_BACK, XINPUT_GAMEPAD_LEFT_THUMB]

set_option maxHeartbeats 1000000 in
/-- A full mapping tick with the key released: the history slot is freed and
the toggle word is preserved untouched by the per-tick rebuild. -/
theorem call_toggle_up (xu xf : UsbhXinput)
    (hwb : xu.pad_state.wButtons = 0)
    (htog : ∀ s, sbToggleStage xu s = (xf, s))
    (hchat : ∀ s, sbApplyOrMap
      (fun c => usbh_xinput_is_chatpad_pressed xu c != 0) sb_chatpad_map
      s = s)
    (halt : ∀ s, sbAlt2Branch xf s =
      (xf, { s with gearLever :=
               constrainI s.gearLever SBC_GEAR_R SBC_GEAR_5 }))
    (hshift : ∀ s, sbShiftStage xf s = (xf, s))
    (hped : ∀ s, sbPedalStage xf xu.pad_state s =
      { s with leftPedal := 0, rightPedal := 0, middlePedal := 0,
               rotationLever := 0 })
    (hcondM : usbh_xinput_is_chatpad_pressed xf XINPUT_CHATPAD_MESSENGER = 0)
    (hcondO : usbh_xinput_is_chatpad_pressed xf XINPUT_CHATPAD_ORANGE = 0) :
    ∀ (sin0 : SBIn) (ud0 : XinputUserData) (sens0 now : Nat),
    (handle_sbattalion xu sin0 sbOutZero ud0 sens0 now).x =
      { xf with lValue_requested := 0, rValue_requested := 0 } ∧
    (handle_sbattalion xu sin0 sbOutZero ud0 sens0 now).sens = sens0 ∧
    (handle_sbattalion xu sin0 sbOutZero ud0 sens0 now).sbin.wButtons2 =
      sin0.wButtons2 := by
  intro sin0 ud0 sens0 now
  have hR : (sbOutZero.Chaff_Extinguisher |||
             (sbOutZero.Chaff_Extinguisher <<< 4) |||
             (sbOutZero.Comm1_MagazineChange <<< 4) |||
             (sbOutZero.CockpitHatch_EmergencyEject <<< 4)) &&& 0xFF = 0 := by
    decide
  simp [handle_sbattalion, sbApplyOrMap_false, hchat, htog, halt, hshift,
        hped, hcondM, hcondO, hwb, hR, sbXOverloadStage_idle,
        isChatpad_set_rumble, sbIgnitionClamp_w2,
        XINPUT_GAMEPAD_BACK, XINPUT_GAMEPAD_LEFT_THUMB]

/-- Releasing any of the five toggle keys is invisible once the history is
free. -/
theorem wasFreeQ : usbh_xinput_was_chatpad_pressed xFree 39 = (0, xFree) := by
  decide

theorem wasFreeA : usbh_xinput_was_chatpad_pressed xFree 55 = (0, xFree) := by
  decide

theorem wasFreeW : usbh_xinput_was_chatpad_pressed xFree 38 = (0, xFree) := by
  decide

theorem wasFreeS : usbh_xinput_was_chatpad_pressed xFree 54 = (0, xFree) := by
  decide

theorem wasFreeZ : usbh_xinput_was_chatpad_pressed xFree 70 = (0, xFree) := by
  decide

/-- Toggle loop with Q (code 39) newly down: only its entry fires. -/
theorem togDownQ : ∀ s, sbToggleStage (toggleKeyDown 39) s =
    (toggleKeyClaimed 39, SBIn.xorW s 2 4) := by
  have hf : usbh_xinput_was_chatpad_pressed (toggleKeyDown 39) 39 =
      (1, toggleKeyClaimed 39) := by decide
  have hA : usbh_xinput_was_chatpad_pressed (toggleKeyClaimed 39) 55 =
      (0, toggleKeyClaimed 39) := by decide
  have hW : usbh_xinput_was_chatpad_pressed (toggleKeyClaimed 39) 38 =
      (0, toggleKeyClaimed 39) := by decide
  have hS : usbh_xinput_was_chatpad_pressed (toggleKeyClaimed 39) 54 =
      (0, toggleKeyClaimed 39) := by decide
  have hZ : usbh_xinput_was_chatpad_pressed (toggleKeyClaimed 39) 70 =
      (0, toggleKeyClaimed 39) := by decide
  intro s
  simp [sbToggleStage, sb_chatpad_toggle_map, XINPUT_CHATPAD_Q,
        XINPUT_CHATPAD_A, XINPUT_CHATPAD_W, XINPUT_CHATPAD_S, XINPUT_CHATPAD_Z,
        SBC_W2_TOGGLEOXYGENSUPPLY, SBC_W2_TOGGLEFILTERCONTROL,
        SBC_W2_TOGGLEVTLOCATION, SBC_W2_TOGGLEBUFFREMATERIAL,
        SBC_W2_TOGGLEFUELFLOWRATE, hf, hA, hW, hS, hZ]

/-- Toggle loop with A (code 55) newly down. -/
theorem togDownA : ∀ s, sbToggleStage (toggleKeyDown 55) s =
    (toggleKeyClaimed 55, SBIn.xorW s 2 8) := by
  have hQ : usbh_xinput_was_chatpad_pressed (toggleKeyDown 55) 39 =
      (0, toggleKeyDown 55) := by decide
  have hf : usbh_xinput_was_chatpad_pressed (toggleKeyDown 55) 55 =
      (1, toggleKeyClaimed 55) := by decide
  have hW : usbh_xinput_was_chatpad_pressed (toggleKeyClaimed 55) 38 =
      (0, toggleKeyClaimed 55) := by decide
  have hS : usbh_xinput_was_chatpad_pressed (toggleKeyClaimed 55) 54 =
      (0, toggleKeyClaimed 55) := by decide
  have hZ : usbh_xinput_was_chatpad_pressed (toggleKeyClaimed 55) 70 =
      (0, toggleKeyClaimed 55) := by decide
  intro s
  simp [sbToggleStage, sb_chatpad_toggle_map, XINPUT_CHATPAD_Q,
        XINPUT_CHATPAD_A, XINPUT_CHATPAD_W, XINPUT_CHATPAD_S, XINPUT_CHATPAD_Z,
        SBC_W2_TOGGLEOXYGENSUPPLY, SBC_W2_TOGGLEFILTERCONTROL,
        SBC_W2_TOGGLEVTLOCATION, SBC_W2_TOGGLEBUFFREMATERIAL,
        SBC_W2_TOGGLEFUELFLOWRATE, hQ, hf, hW, hS, hZ]

/-- Toggle loop with W (code 38) newly down. -/
theorem togDownW : ∀ s, sbToggleStage (toggleKeyDown 38) s =
    (toggleKeyClaimed 38, SBIn.xorW s 2 16) := by
  have hQ : usbh_xinput_was_chatpad_pressed (toggleKeyDown 38) 39 =
      (0, toggleKeyDown 38) := by decide
  have hA : usbh_xinput_was_chatpad_pressed (toggleKeyDown 38) 55 =
      (0, toggleKeyDown 38) := by decide
  have hf : usbh_xinput_was_chatpad_pressed (toggleKeyDown 38) 38 =
      (1, toggleKeyClaimed 38) := by decide
  have hS : usbh_xinput_was_chatpad_pressed (toggleKeyClaimed 38) 54 =
      (0, toggleKeyClaimed 38) := by decide
  have hZ : usbh_xinput_was_chatpad_pressed (toggleKeyClaimed 38) 70 =
      (0, toggleKeyClaimed 38) := by decide
  intro s
  simp [sbToggleStage, sb_chatpad_toggle_map, XINPUT_CHATPAD_Q,
        XINPUT_CHATPAD_A, XINPUT_CHATPAD_W, XINPUT_CHATPAD_S, XINPUT_CHATPAD_Z,
        SBC_W2_TOGGLEOXYGENSUPPLY, SBC_W2_TOGGLEFILTERCONTROL,
        SBC_W2_TOGGLEVTLOCATION, SBC_W2_TOGGLEBUFFREMATERIAL,
        SBC_W2_TOGGLEFUELFLOWRATE, hQ, hA, hf, hS, hZ]

/-- Toggle loop with S (code 54) newly down. -/
theorem togDownS : ∀ s, sbToggleStage (toggleKeyDown 54) s =
    (toggleKeyClaimed 54, SBIn.xorW s 2 32) := by
  have hQ : usbh_xinput_was_chatpad_pressed (toggleKeyDown 54) 39 =
      (0, toggleKeyDown 54) := by decide
  have hA : usbh_xinput_was_chatpad_pressed (toggleKeyDown 54) 55 =
      (0, toggleKeyDown 54) := by decide
  have hW : usbh_xinput_was_chatpad_pressed (toggleKeyDown 54) 38 =
      (0, toggleKeyDown 54) := by decide
  have hf : usbh_xinput_was_chatpad_pressed (toggleKeyDown 54) 54 =
      (1, toggleKeyClaimed 54) := by decide
  have hZ : usbh_xinput_was_chatpad_pressed (toggleKeyClaimed 54) 70 =
      (0, toggleKeyClaimed 54) := by decide
  intro s
  simp [sbToggleStage, sb_chatpad_toggle_map, XINPUT_CHATPAD_Q,
        XINPUT_CHATPAD_A, XINPUT_CHATPAD_W, XINPUT_CHATPAD_S, XINPUT_CHATPAD_Z,
        SBC_W2_TOGGLEOXYGENSUPPLY, SBC_W2_TOGGLEFILTERCONTROL,
        SBC_W2_TOGGLEVTLOCATION, SBC_W2_TOGGLEBUFFREMATERIAL,
        SBC_W2_TOGGLEFUELFLOWRATE, hQ, hA, hW, hf, hZ]

/-- Toggle loop with Z (code 70) newly down. -/
theorem togDownZ : ∀ s, sbToggleStage (toggleKeyDown 70) s =
    (toggleKeyClaimed 70, SBIn.xorW s 2 64) := by
  have hQ : usbh_xinput_was_chatpad_pressed (toggleKeyDown 70) 39 =
      (0, toggleKeyDown 70) := by decide
  have hA : usbh_xinput_was_chatpad_pressed (toggleKeyDown 70) 55 =
      (0, toggleKeyDown 70) := by decide
  have hW : usbh_xinput_was_chatpad_pressed (toggleKeyDown 70) 38 =
      (0, toggleKeyDown 70) := by decide
  have hS : usbh_xinput_was_chatpad_pressed (toggleKeyDown 70) 54 =
      (0, toggleKeyDown 70) := by decide
  have hf : usbh_xinput_was_chatpad_pressed (toggleKeyDown 70) 70 =
      (1, toggleKeyClaimed 70) := by decide
  intro s
  simp [sbToggleStage, sb_chatpad_toggle_map, XINPUT_CHATPAD_Q,
        XINPUT_CHATPAD_A, XINPUT_CHATPAD_W, XINPUT_CHATPAD_S, XINPUT_CHATPAD_Z,
        SBC_W2_TOGGLEOXYGENSUPPLY, SBC_W2_TOGGLEFILTERCONTROL,
        SBC_W2_TOGGLEVTLOCATION, SBC_W2_TOGGLEBUFFREMATERIAL,
        SBC_W2_TOGGLEFUELFLOWRATE, hQ, hA, hW, hS, hf]

/-- Toggle loop with Q released: the slot is freed, nothing fires. -/
theorem togUpQ : ∀ s, sbToggleStage (toggleKeyUp 39) s = (xFree, s) := by
  have hf : usbh_xinput_was_chatpad_pressed (toggleKeyUp 39) 39 =
      (0, xFree) := by decide
  intro s
  simp [sbToggleStage, sb_chatpad_toggle_map, XINPUT_CHATPAD_Q,
        XINPUT_CHATPAD_A, XINPUT_CHATPAD_W, XINPUT_CHATPAD_S, XINPUT_CHATPAD_Z,
        hf, wasFreeA, wasFreeW, wasFreeS, wasFreeZ]

/-- Toggle loop with A released. -/
theorem togUpA : ∀ s, sbToggleStage (toggleKeyUp 55) s = (xFree, s) := by
  have hQ : usbh_xinput_was_chatpad_pressed (toggleKeyUp 55) 39 =
      (0, toggleKeyUp 55) := by decide
  have hf : usbh_xinput_was_chatpad_pressed (toggleKeyUp 55) 55 =
      (0, xFree) := by decide
  intro s
  simp [sbToggleStage, sb_chatpad_toggle_map, XINPUT_CHATPAD_Q,
        XINPUT_CHATPAD_A, XINPUT_CHATPAD_W, XINPUT_CHATPAD_S, XINPUT_CHATPAD_Z,
        hQ, hf, wasFreeW, wasFreeS, wasFreeZ]

/-- Toggle loop with W released. -/
theorem togUpW : ∀ s, sbToggleStage (toggleKeyUp 38) s = (xFree, s) := by
  have hQ : usbh_xinput_was_chatpad_pressed (toggleKeyUp 38) 39 =
      (0, toggleKeyUp 38) := by decide
  have hA : usbh_xinput_was_chatpad_pressed (toggleKeyUp 38) 55 =
      (0, toggleKeyUp 38) := by decide
  have hf : usbh_xinput_was_chatpad_pressed (toggleKeyUp 38) 38 =
      (0, xFree) := by decide
  intro s
  simp [sbToggleStage, sb_chatpad_toggle_map, XINPUT_CHATPAD_Q,
        XINPUT_CHATPAD_A, XINPUT_CHATPAD_W, XINPUT_CHATPAD_S, XINPUT_CHATPAD_Z,
        hQ, hA, hf, wasFreeS, wasFreeZ]

/-- Toggle loop with S released. -/
theorem togUpS : ∀ s, sbToggleStage (toggleKeyUp 54) s = (xFree, s) := by
  have hQ : usbh_xinput_was_chatpad_pressed (toggleKeyUp 54) 39 =
      (0, toggleKeyUp 54) := by decide
  have hA : usbh_xinput_was_chatpad_pressed (toggleKeyUp 54) 55 =
      (0, toggleKeyUp 54) := by decide
  have hW : usbh_xinput_was_chatpad_pressed (toggleKeyUp 54) 38 =
      (0, toggleKeyUp 54) := by decide
  have hf : usbh_xinput_was_chatpad_pressed (toggleKeyUp 54) 54 =
      (0, xFree) := by decide
  intro s
  simp [sbToggleStage, sb_chatpad_toggle_map, XINPUT_CHATPAD_Q,
        XINPUT_CHATPAD_A, XINPUT_CHATPAD_W, XINPUT_CHATPAD_S, XINPUT_CHATPAD_Z,
        hQ, hA, hW, hf, wasFreeZ]

/-- Toggle loop with Z released. -/
theorem togUpZ : ∀ s, sbToggleStage (toggleKeyUp 70) s = (xFree, s) := by
  have hQ : usbh_xinput_was_chatpad_pressed (toggleKeyUp 70) 39 =
      (0, toggleKeyUp 70) := by decide
  have hA : usbh_xinput_was_chatpad_pressed (toggleKeyUp 70) 55 =
      (0, toggleKeyUp 70) := by decide
  have hW : usbh_xinput_was_chatpad_pressed (toggleKeyUp 70) 38 =
      (0, toggleKeyUp 70) := by decide
  have hS : usbh_xinput_was_chatpad_pressed (toggleKeyUp 70) 54 =
      (0, toggleKeyUp 70) := by decide
  have hf : usbh_xinput_was_chatpad_pressed (toggleKeyUp 70) 70 =
      (0, xFree) := by decide
  intro s
  simp [sbToggleStage, sb_chatpad_toggle_map, XINPUT_CHATPAD_Q,
        XINPUT_CHATPAD_A, XINPUT_CHATPAD_W, XINPUT_CHATPAD_S, XINPUT_CHATPAD_Z,
        hQ, hA, hW, hS, hf]

/-- The key-down tick for Q. -/
theorem call_down_Q : ∀ (sin0 : SBIn) (ud0 : XinputUserData)
    (sens0 now : Nat),
    (handle_sbattalion (toggleKeyDown 39) sin0 sbOutZero ud0 sens0 now).x =
      { toggleKeyClaimed 39 with lValue_requested := 0, rValue_requested := 0 } ∧
    (handle_sbattalion (toggleKeyDown 39) sin0 sbOutZero ud0 sens0
      now).sens = sens0 ∧
    (handle_sbattalion (toggleKeyDown 39) sin0 sbOutZero ud0 sens0
      now).sbin.wButtons2 = sin0.wButtons2 ^^^ 4 :=
  call_toggle_down (toggleKeyDown 39) (toggleKeyClaimed 39) 4 rfl togDownQ
    (sbApplyOrMap_all_false _ sb_chatpad_map (by decide))
    (sbAlt2Branch_idle _ (sbApplyOrMap_all_false _ sb_chatpad_alt2_map
      (by decide)) (by decide) (by decide) (by decide))
    (sbShiftStage_idle _ (by decide))
    (sbPedalStage_idle _ _ (by decide) (by decide) rfl rfl rfl)
    (by decide) (by decide)

/-- The key-down tick for A. -/
theorem call_down_A : ∀ (sin0 : SBIn) (ud0 : XinputUserData)
    (sens0 now : Nat),
    (handle_sbattalion (toggleKeyDown 55) sin0 sbOutZero ud0 sens0 now).x =
      { toggleKeyClaimed 55 with lValue_requested := 0, rValue_requested := 0 } ∧
    (handle_sbattalion (toggleKeyDown 55) sin0 sbOutZero ud0 sens0
      now).sens = sens0 ∧
    (handle_sbattalion (toggleKeyDown 55) sin0 sbOutZero ud0 sens0
      now).sbin.wButtons2 = sin0.wButtons2 ^^^ 8 :=
  call_toggle_down (toggleKeyDown 55) (toggleKeyClaimed 55) 8 rfl togDownA
    (sbApplyOrMap_all_false _ sb_chatpad_map (by decide))
    (sbAlt2Branch_idle _ (sbApplyOrMap_all_false _ sb_chatpad_alt2_map
      (by decide)) (by decide) (by decide) (by decide))
    (sbShiftStage_idle _ (by decide))
    (sbPedalStage_idle _ _ (by decide) (by decide) rfl rfl rfl)
    (by decide) (by decide)

/-- The key-down tick for W. -/
theorem call_down_W : ∀ (sin0 : SBIn) (ud0 : XinputUserData)
    (sens0 now : Nat),
    (handle_sbattalion (toggleKeyDown 38) sin0 sbOutZero ud0 sens0 now).x =
      { toggleKeyClaimed 38 with lValue_requested := 0, rValue_requested := 0 } ∧
    (handle_sbattalion (toggleKeyDown 38) sin0 sbOutZero ud0 sens0
      now).sens = sens0 ∧
    (handle_sbattalion (toggleKeyDown 38) sin0 sbOutZero ud0 sens0
      now).sbin.wButtons2 = sin0.wButtons2 ^^^ 16 :=
  call_toggle_down (toggleKeyDown 38) (toggleKeyClaimed 38) 16 rfl togDownW
    (sbApplyOrMap_all_false _ sb_chatpad_map (by decide))
    (sbAlt2Branch_idle _ (sbApplyOrMap_all_false _ sb_chatpad_alt2_map
      (by decide)) (by decide) (by decide) (by decide))
    (sbShiftStage_idle _ (by decide))
    (sbPedalStage_idle _ _ (by decide) (by decide) rfl rfl rfl)
    (by decide) (by decide)

/-- The key-down tick for S. -/
theorem call_down_S : ∀ (sin0 : SBIn) (ud0 : XinputUserData)
    (sens0 now : Nat),
    (handle_sbattalion (toggleKeyDown 54) sin0 sbOutZero ud0 sens0 now).x =
      { toggleKeyClaimed 54 with lValue_requested := 0, rValue_requested := 0 } ∧
    (handle_sbattalion (toggleKeyDown 54) sin0 sbOutZero ud0 sens0
      now).sens = sens0 ∧
    (handle_sbattalion (toggleKeyDown 54) sin0 sbOutZero ud0 sens0
      now).sbin.wButtons2 = sin0.wButtons2 ^^^ 32 :=
  call_toggle_down (toggleKeyDown 54) (toggleKeyClaimed 54) 32 rfl togDownS
    (sbApplyOrMap_all_false _ sb_chatpad_map (by decide))
    (sbAlt2Branch_idle _ (sbApplyOrMap_all_false _ sb_chatpad_alt2_map
      (by decide)) (by decide) (by decide) (by decide))
    (sbShiftStage_idle _ (by decide))
    (sbPedalStage_idle _ _ (by decide) (by decide) rfl rfl rfl)
    (by decide) (by decide)

/-- The key-down tick for Z. -/
theorem call_down_Z : ∀ (sin0 : SBIn) (ud0 : XinputUserData)
    (sens0 now : Nat),
    (handle_sbattalion (toggleKeyDown 70) sin0 sbOutZero ud0 sens0 now).x =
      { toggleKeyClaimed 70 with lValue_requested := 0, rValue_requested := 0 } ∧
    (handle_sbattalion (toggleKeyDown 70) sin0 sbOutZero ud0 sens0
      now).sens = sens0 ∧
    (handle_sbattalion (toggleKeyDown 70) sin0 sbOutZero ud0 sens0
      now).sbin.wButtons2 = sin0.wButtons2 ^^^ 64 :=
  call_toggle_down (toggleKeyDown 70) (toggleKeyClaimed 70) 64 rfl togDownZ
    (sbApplyOrMap_all_false _ sb_chatpad_map (by decide))
    (sbAlt2Branch_idle _ (sbApplyOrMap_all_false _ sb_chatpad_alt2_map
      (by decide)) (by decide) (by decide) (by decide))
    (sbShiftStage_idle _ (by decide))
    (sbPedalStage_idle _ _ (by decide) (by decide) rfl rfl rfl)
    (by decide) (by decide)

/-- The release tick for Q. -/
theorem call_up_Q : ∀ (sin0 : SBIn) (ud0 : XinputUserData)
    (sens0 now : Nat),
    (handle_sbattalion (toggleKeyUp 39) sin0 sbOutZero ud0 sens0 now).x =
      { xFree with lValue_requested := 0, rValue_requested := 0 } ∧
    (handle_sbattalion (toggleKeyUp 39) sin0 sbOutZero ud0 sens0 now).sens =
      sens0 ∧
    (handle_sbattalion (toggleKeyUp 39) sin0 sbOutZero ud0 sens0
      now).sbin.wButtons2 = sin0.wButtons2 :=
  call_toggle_up (toggleKeyUp 39) xFree rfl togUpQ
    (sbApplyOrMap_all_false _ sb_chatpad_map (by decide))
    (sbAlt2Branch_idle _ (sbApplyOrMap_all_false _ sb_chatpad_alt2_map
      (by decide)) (by decide) (by decide) (by decide))
    (sbShiftStage_idle _ (by decide))
    (sbPedalStage_idle _ _ (by decide) (by decide) rfl rfl rfl)
    (by decide) (by decide)

/-- The release tick for A. -/
theorem call_up_A : ∀ (sin0 : SBIn) (ud0 : XinputUserData)
    (sens0 now : Nat),
    (handle_sbattalion (toggleKeyUp 55) sin0 sbOutZero ud0 sens0 now).x =
      { xFree with lValue_requested := 0, rValue_requested := 0 } ∧
    (handle_sbattalion (toggleKeyUp 55) sin0 sbOutZero ud0 sens0 now).sens =
      sens0 ∧
    (handle_sbattalion (toggleKeyUp 55) sin0 sbOutZero ud0 sens0
      now).sbin.wButtons2 = sin0.wButtons2 :=
  call_toggle_up (toggleKeyUp 55) xFree rfl togUpA
    (sbApplyOrMap_all_false _ sb_chatpad_map (by decide))
    (sbAlt2Branch_idle _ (sbApplyOrMap_all_false _ sb_chatpad_alt2_map
      (by decide)) (by decide) (by decide) (by decide))
    (sbShiftStage_idle _ (by decide))
    (sbPedalStage_idle _ _ (by decide) (by decide) rfl rfl rfl)
    (by decide) (by decide)

/-- The release tick for W. -/
theorem call_up_W : ∀ (sin0 : SBIn) (ud0 : XinputUserData)
    (sens0 now : Nat),
    (handle_sbattalion (toggleKeyUp 38) sin0 sbOutZero ud0 sens0 now).x =
      { xFree with lValue_requested := 0, rValue_requested := 0 } ∧
    (handle_sbattalion (toggleKeyUp 38) sin0 sbOutZero ud0 sens0 now).sens =
      sens0 ∧
    (handle_sbattalion (toggleKeyUp 38) sin0 sbOutZero ud0 sens0
      now).sbin.wButtons2 = sin0.wButtons2 :=
  call_toggle_up (toggleKeyUp 38) xFree rfl togUpW
    (sbApplyOrMap_all_false _ sb_chatpad_map (by decide))
    (sbAlt2Branch_idle _ (sbApplyOrMap_all_false _ sb_chatpad_alt2_map
      (by decide)) (by decide) (by decide) (by decide))
    (sbShiftStage_idle _ (by decide))
    (sbPedalStage_idle _ _ (by decide) (by decide) rfl rfl rfl)
    (by decide) (by decide)

/-- The release tick for S. -/
theorem call_up_S : ∀ (sin0 : SBIn) (ud0 : XinputUserData)
    (sens0 now : Nat),
    (handle_sbattalion (toggleKeyUp 54) sin0 sbOutZero ud0 sens0 now).x =
      { xFree with lValue_requested := 0, rValue_requested := 0 } ∧
    (handle_sbattalion (toggleKeyUp 54) sin0 sbOutZero ud0 sens0 now).sens =
      sens0 ∧
    (handle_sbattalion (toggleKeyUp 54) sin0 sbOutZero ud0 sens0
      now).sbin.wButtons2 = sin0.wButtons2 :=
  call_toggle_up (toggleKeyUp 54) xFree rfl togUpS
    (sbApplyOrMap_all_false _ sb_chatpad_map (by decide))
    (sbAlt2Branch_idle _ (sbApplyOrMap_all_false _ sb_chatpad_alt2_map
      (by decide)) (by decide) (by decide) (by decide))
    (sbShiftStage_idle _ (by decide))
    (sbPedalStage_idle _ _ (by decide) (by decide) rfl rfl rfl)
    (by decide) (by decide)

/-- The release tick for Z. -/
theorem call_up_Z : ∀ (sin0 : SBIn) (ud0 : XinputUserData)
    (sens0 now : Nat),
    (handle_sbattalion (toggleKeyUp 70) sin0 sbOutZero ud0 sens0 now).x =
      { xFree with lValue_requested := 0, rValue_requested := 0 } ∧
    (handle_sbattalion (toggleKeyUp 70) sin0 sbOutZero ud0 sens0 now).sens =
      sens0 ∧
    (handle_sbattalion (toggleKeyUp 70) sin0 sbOutZero ud0 sens0
      now).sbin.wButtons2 = sin0.wButtons2 :=
  call_toggle_up (toggleKeyUp 70) xFree rfl togUpZ
    (sbApplyOrMap_all_false _ sb_chatpad_map (by decide))
    (sbAlt2Branch_idle _ (sbApplyOrMap_all_false _ sb_chatpad_alt2_map
      (by decide)) (by decide) (by decide) (by decide))
    (sbShiftStage_idle _ (by decide))
    (sbPedalStage_idle _ _ (by decide) (by decide) rfl rfl rfl)
    (by decide) (by decide)

/-- The press-release-press cycle for one key, assembled from its down-tick
and release-tick descriptions. -/
theorem toggle_cycle (code mask : Nat)
    (hdn : ∀ (sin0 : SBIn) (ud0 : XinputUserData) (sens0 now : Nat),
      (handle_sbattalion (toggleKeyDown code) sin0 sbOutZero ud0 sens0
        now).x = { toggleKeyClaimed code with lValue_requested := 0, rValue_requested := 0 } ∧
      (handle_sbattalion (toggleKeyDown code) sin0 sbOutZero ud0 sens0
        now).sens = sens0 ∧
      (handle_sbattalion (toggleKeyDown code) sin0 sbOutZero ud0 sens0
        now).sbin.wButtons2 = sin0.wButtons2 ^^^ mask)
    (hup : ∀ (sin0 : SBIn) (ud0 : XinputUserData) (sens0 now : Nat),
      (handle_sbattalion (toggleKeyUp code) sin0 sbOutZero ud0 sens0
        now).x = { xFree with lValue_requested := 0, rValue_requested := 0 } ∧
      (handle_sbattalion (toggleKeyUp code) sin0 sbOutZero ud0 sens0
        now).sens = sens0 ∧
      (handle_sbattalion (toggleKeyUp code) sin0 sbOutZero ud0 sens0
        now).sbin.wButtons2 = sin0.wButtons2)
    (sin0 : SBIn) (ud0 : XinputUserData) (sens0 n1 n2 n3 : Nat) :
    (handle_sbattalion (toggleKeyDown code) sin0 sbOutZero ud0 sens0
      n1).sbin.wButtons2 = sin0.wButtons2 ^^^ mask ∧
    (handle_sbattalion
      { (handle_sbattalion (toggleKeyDown code) sin0 sbOutZero ud0 sens0
          n1).x with chatpad_state := [0, 0, 0] }
      (handle_sbattalion (toggleKeyDown code) sin0 sbOutZero ud0 sens0
        n1).sbin sbOutZero
      (handle_sbattalion (toggleKeyDown code) sin0 sbOutZero ud0 sens0
        n1).ud
      (handle_sbattalion (toggleKeyDown code) sin0 sbOutZero ud0 sens0
        n1).sens n2).sbin.wButtons2 = sin0.wButtons2 ^^^ mask ∧
    (handle_sbattalion
      { (handle_sbattalion
          { (handle_sbattalion (toggleKeyDown code) sin0 sbOutZero ud0 sens0
              n1).x with chatpad_state := [0, 0, 0] }
          (handle_sbattalion (toggleKeyDown code) sin0 sbOutZero ud0 sens0
            n1).sbin sbOutZero
          (handle_sbattalion (toggleKeyDown code) sin0 sbOutZero ud0 sens0
            n1).ud
          (handle_sbattalion (toggleKeyDown code) sin0 sbOutZero ud0 sens0
            n1).sens n2).x with chatpad_state := [0, code, 0] }
      (handle_sbattalion
        { (handle_sbattalion (toggleKeyDown code) sin0 sbOutZero ud0 sens0
            n1).x with chatpad_state := [0, 0, 0] }
        (handle_sbattalion (toggleKeyDown code) sin0 sbOutZero ud0 sens0
          n1).sbin sbOutZero
        (handle_sbattalion (toggleKeyDown code) sin0 sbOutZero ud0 sens0
          n1).ud
        (handle_sbattalion (toggleKeyDown code) sin0 sbOutZero ud0 sens0
          n1).sens n2).sbin sbOutZero
      (handle_sbattalion
        { (handle_sbattalion (toggleKeyDown code) sin0 sbOutZero ud0 sens0
            n1).x with chatpad_state := [0, 0, 0] }
        (handle_sbattalion (toggleKeyDown code) sin0 sbOutZero ud0 sens0
          n1).sbin sbOutZero
        (handle_sbattalion (toggleKeyDown code) sin0 sbOutZero ud0 sens0
          n1).ud
        (handle_sbattalion (toggleKeyDown code) sin0 sbOutZero ud0 sens0
          n1).sens n2).ud
      (handle_sbattalion
        { (handle_sbattalion (toggleKeyDown code) sin0 sbOutZero ud0 sens0
            n1).x with chatpad_state := [0, 0, 0] }
        (handle_sbattalion (toggleKeyDown code) sin0 sbOutZero ud0 sens0
          n1).sbin sbOutZero
        (handle_sbattalion (toggleKeyDown code) sin0 sbOutZero ud0 sens0
          n1).ud
        (handle_sbattalion (toggleKeyDown code) sin0 sbOutZero ud0 sens0
          n1).sens n2).sens n3).sbin.wButtons2 = sin0.wButtons2 := by
  obtain ⟨h1x, h1s, h1w⟩ := hdn sin0 ud0 sens0 n1
  have hx2 : ({ (handle_sbattalion (toggleKeyDown code) sin0 sbOutZero ud0
      sens0 n1).x with chatpad_state := [0, 0, 0] } : UsbhXinput) =
      toggleKeyUp code := by
    rw [h1x]; exact keyDown_to_up code
  rw [hx2, h1s]
  obtain ⟨h2x, h2s, h2w⟩ := hup
    (handle_sbattalion (toggleKeyDown code) sin0 sbOutZero ud0 sens0 n1).sbin
    (handle_sbattalion (toggleKeyDown code) sin0 sbOutZero ud0 sens0 n1).ud
    sens0 n2
  have hx3 : ({ (handle_sbattalion (toggleKeyUp code)
      (handle_sbattalion (toggleKeyDown code) sin0 sbOutZero ud0 sens0
        n1).sbin sbOutZero
      (handle_sbattalion (toggleKeyDown code) sin0 sbOutZero ud0 sens0
        n1).ud sens0 n2).x with chatpad_state := [0, code, 0] } :
      UsbhXinput) = toggleKeyDown code := by
    rw [h2x]; exact keyUp_to_down code
  rw [hx3, h2s]
  obtain ⟨h3x, h3s, h3w⟩ := hdn
    (handle_sbattalion (toggleKeyUp code)
      (handle_sbattalion (toggleKeyDown code) sin0 sbOutZero ud0 sens0
        n1).sbin sbOutZero
      (handle_sbattalion (toggleKeyDown code) sin0 sbOutZero ud0 sens0
        n1).ud sens0 n2).sbin
    (handle_sbattalion (toggleKeyUp code)
      (handle_sbattalion (toggleKeyDown code) sin0 sbOutZero ud0 sens0
        n1).sbin sbOutZero
      (handle_sbattalion (toggleKeyDown code) sin0 sbOutZero ud0 sens0
        n1).ud sens0 n2).ud sens0 n3
  rw [h3w, h2w, h1w]
  refine ⟨rfl, rfl, ?_⟩
  rw [Nat.xor_assoc]
  simp

/-- C8: for every entry of the toggle table — each of the five toggle-mapped
chatpad keys — a qualifying rising edge XORs (flips, rather than sets) the
mapped toggle-switch bit in word 2 of the in-report: starting from any report
state, the first edge flips the toggle word by the entry mask, the release
tick preserves the word through the per-tick report rebuild (the rebuild
clears only words 0 and 1), and a second rising edge of the same key flips it
back, returning the word — and in particular the mapped bit — to its original
value. -/
theorem sbattalion_toggle_xor_involution :
    ∀ (code mask off : Nat), (code, mask, off) ∈ sb_chatpad_toggle_map →
    ∀ (sin0 : SBIn) (ud0 : XinputUserData) (sens0 n1 n2 n3 : Nat),
    (handle_sbattalion (toggleKeyDown code) sin0 sbOutZero ud0 sens0
      n1).sbin.wButtons2 = sin0.wButtons2 ^^^ mask ∧
    (handle_sbattalion
      { (handle_sbattalion (toggleKeyDown code) sin0 sbOutZero ud0 sens0
          n1).x with chatpad_state := [0, 0, 0] }
      (handle_sbattalion (toggleKeyDown code) sin0 sbOutZero ud0 sens0
        n1).sbin sbOutZero
      (handle_sbattalion (toggleKeyDown code) sin0 sbOutZero ud0 sens0
        n1).ud
      (handle_sbattalion (toggleKeyDown code) sin0 sbOutZero ud0 sens0
        n1).sens n2).sbin.wButtons2 = sin0.wButtons2 ^^^ mask ∧
    (handle_sbattalion
      { (handle_sbattalion
          { (handle_sbattalion (toggleKeyDown code) sin0 sbOutZero ud0 sens0
              n1).x with chatpad_state := [0, 0, 0] }
          (handle_sbattalion (toggleKeyDown code) sin0 sbOutZero ud0 sens0
            n1).sbin sbOutZero
          (handle_sbattalion (toggleKeyDown code) sin0 sbOutZero ud0 sens0
            n1).ud
          (handle_sbattalion (toggleKeyDown code) sin0 sbOutZero ud0 sens0
            n1).sens n2).x with chatpad_state := [0, code, 0] }
      (handle_sbattalion
        { (handle_sbattalion (toggleKeyDown code) sin0 sbOutZero ud0 sens0
            n1).x with chatpad_state := [0, 0, 0] }
        (handle_sbattalion (toggleKeyDown code) sin0 sbOutZero ud0 sens0
          n1).sbin sbOutZero
        (handle_sbattalion (toggleKeyDown code) sin0 sbOutZero ud0 sens0
          n1).ud
        (handle_sbattalion (toggleKeyDown code) sin0 sbOutZero ud0 sens0
          n1).sens n2).sbin sbOutZero
      (handle_sbattalion
        { (handle_sbattalion (toggleKeyDown code) sin0 sbOutZero ud0 sens0
            n1).x with chatpad_state := [0, 0, 0] }
        (handle_sbattalion (toggleKeyDown code) sin0 sbOutZero ud0 sens0
          n1).sbin sbOutZero
        (handle_sbattalion (toggleKeyDown code) sin0 sbOutZero ud0 sens0
          n1).ud
        (handle_sbattalion (toggleKeyDown code) sin0 sbOutZero ud0 sens0
          n1).sens n2).ud
      (handle_sbattalion
        { (handle_sbattalion (toggleKeyDown code) sin0 sbOutZero ud0 sens0
            n1).x with chatpad_state := [0, 0, 0] }
        (handle_sbattalion (toggleKeyDown code) sin0 sbOutZero ud0 sens0
          n1).sbin sbOutZero
        (handle_sbattalion (toggleKeyDown code) sin0 sbOutZero ud0 sens0
          n1).ud
        (handle_sbattalion (toggleKeyDown code) sin0 sbOutZero ud0 sens0
          n1).sens n2).sens n3).sbin.wButtons2 = sin0.wButtons2 := by
  intro code mask off he sin0 ud0 sens0 n1 n2 n3
  simp only [sb_chatpad_toggle_map, XINPUT_CHATPAD_Q, XINPUT_CHATPAD_A,
             XINPUT_CHATPAD_W, XINPUT_CHATPAD_S, XINPUT_CHATPAD_Z,
             SBC_W2_TOGGLEOXYGENSUPPLY, SBC_W2_TOGGLEFILTERCONTROL,
             SBC_W2_TOGGLEVTLOCATION, SBC_W2_TOGGLEBUFFREMATERIAL,
             SBC_W2_TOGGLEFUELFLOWRATE, List.mem_cons, List.not_mem_nil,
             or_false, Prod.mk.injEq] at he
  rcases he with ⟨rfl, rfl, rfl⟩ | ⟨rfl, rfl, rfl⟩ | ⟨rfl, rfl, rfl⟩ |
    ⟨rfl, rfl, rfl⟩ | ⟨rfl, rfl, rfl⟩
  · exact toggle_cycle 39 4 call_down_Q call_up_Q sin0 ud0 sens0 n1 n2 n3
  · exact toggle_cycle 55 8 call_down_A call_up_A sin0 ud0 sens0 n1 n2 n3
  · exact toggle_cycle 38 16 call_down_W call_up_W sin0 ud0 sens0 n1 n2 n3
  · exact toggle_cycle 54 32 call_down_S call_up_S sin0 ud0 sens0 n1 n2 n3
  · exact toggle_cycle 70 64 call_down_Z call_up_Z sin0 ud0 sens0 n1 n2 n3

/-- C8 witness: the oxygen-supply entry of the toggle table, exercised at a
concrete report. -/
theorem sbattalion_toggle_xor_involution_witness :
    ((39, 4, 2) ∈ sb_chatpad_toggle_map) ∧
    (handle_sbattalion (toggleKeyDown 39) sbInZero sbOutZero udZero 400
      1000).sbin.wButtons2 = sbInZero.wButtons2 ^^^ 4 :=
  ⟨by decide, (sbattalion_toggle_xor_involution 39 4 2 (by decide)
    sbInZero udZero 400 1000 1100 1200).1⟩

end Ogx360
